import Mathlib

/-!
Shallow embedding of the ephemeris caching subsystem of the Solar-System-Live
server (server/src/cache/ephemerisCache.ts and server/src/cache/bodyEphemerisCache.ts).

Time is modelled as `Int` milliseconds (JavaScript `Date.now()`); ISO-8601
renderings of instants are opaque `String`s supplied as inputs.  Floating-point
coordinates are modelled as `Int` values: the cache layer only copies them, it
never computes with them.  Asynchronous upstream calls are modelled by passing
their outcome (`Except String _`, the error being the thrown message) as an
explicit input; the per-mode / per-body in-flight promise slot is modelled as
an `Option` holding the outcome the pending promise will settle with.  The
single JavaScript thread means each synchronous segment of the source runs
atomically; each Lean function below models one such call, threading the
module-level mutable state explicitly.
-/

namespace SolarSystem

/-- Cache backend tag, from `observability/metrics` (`memory` vs `redis`). -/
inductive CacheBackend where
  | redis
  | memory
deriving DecidableEq, Repr

/-- Cache states appearing in `SnapshotResult.cacheState` and the
`cacheStatus` metadata strings: HIT, MISS, STALE, FROZEN. -/
inductive CacheState where
  | HIT
  | MISS
  | STALE
  | FROZEN
deriving DecidableEq, Repr

/-- Cache configuration: `CACHE_TTL_MS` and `STALE_WHILE_REVALIDATE_MS`
(module constants read from the environment in ephemerisCache.ts). -/
structure CacheConfig where
  ttlMs : Int
  staleMs : Int
deriving DecidableEq, Repr

/-- interface EphemerisBody (ephemerisCache.ts). -/
structure EphemerisBody where
  name : String
  x_au : Int
  y_au : Int
  z_au : Int
  vx : Option Int := none
  vy : Option Int := none
  vz : Option Int := none
  velocityUnit : Option String := none
  timestamp : Option String := none
  range_au : Option Int := none
  range_rate_km_s : Option Int := none
  light_time_minutes : Option Int := none
  solar_elongation_deg : Option Int := none
  phase_angle_deg : Option Int := none
  illumination_fraction : Option Int := none
  apparent_magnitude : Option Int := none
deriving DecidableEq, Repr

/-- The `metadata` object of an EphemerisSnapshot.  The TS field named by the
adjective for incomplete snapshots is rendered here as `partFlag`. -/
structure SnapshotMetadata where
  source : Option String := none
  referenceFrame : Option String := none
  distanceUnit : Option String := none
  velocityUnit : Option String := none
  responseTimeMs : Option Int := none
  cacheStatus : Option CacheState := none
  cacheBackend : Option CacheBackend := none
  cacheAgeMs : Option Int := none
  cacheExpiresInMs : Option Int := none
  cacheStale : Option Bool := none
  generatedAt : Option String := none
  frozenSnapshot : Option Bool := none
  freezeReason : Option String := none
  requestId : Option String := none
  partFlag : Option Bool := none
  fallbackBodies : Option (List String) := none
  missingBodies : Option (List String) := none
deriving DecidableEq, Repr

/-- interface EphemerisSnapshot (ephemerisCache.ts). -/
structure EphemerisSnapshot where
  timestamp : String
  metadata : SnapshotMetadata
  bodies : List EphemerisBody
deriving DecidableEq, Repr

/-- interface CacheRecord (ephemerisCache.ts). -/
structure CacheRecord where
  payload : EphemerisSnapshot
  cachedAt : Int
  expiresAt : Int
  staleUntil : Int
deriving DecidableEq, Repr

/-- interface SnapshotResult (ephemerisCache.ts). -/
structure SnapshotResult where
  payload : EphemerisSnapshot
  cacheState : CacheState
  cacheBackend : CacheBackend
  cacheAgeMs : Int
deriving DecidableEq, Repr

deriving instance DecidableEq for Except

/-- One entry of the PLANETS table (config/planets.ts): the fields
buildPlanetSnapshot reads are `horizonsId` and `name`. -/
structure PlanetConfig where
  horizonsId : String
  name : String
deriving DecidableEq, Repr

/-- The normalized result of one `fetchPlanetStateVector` round trip
(nasa/horizonsClient.ts), restricted to the fields the caches read. -/
structure FetchedVector where
  name : String
  x_au : Int
  y_au : Int
  z_au : Int
  vx_au_per_day : Option Int := none
  vy_au_per_day : Option Int := none
  vz_au_per_day : Option Int := none
  velocityUnit : Option String := none
  timestamp : Option String := none
  referenceFrame : Option String := none
  source : Option String := none
  range_au : Option Int := none
  range_rate_km_s : Option Int := none
  light_time_minutes : Option Int := none
  solar_elongation_deg : Option Int := none
  phase_angle_deg : Option Int := none
  illumination_fraction : Option Int := none
  apparent_magnitude : Option Int := none
deriving DecidableEq, Repr

/-! ## Single-body cache (bodyEphemerisCache.ts)

The module-level maps `cache` and `inflight` are keyed by body id; distinct
ids never interact, so the state below models the slots for one fixed id. -/

/-- The `metadata` object of a BodyEphemerisPayload.  In the source its
`cacheStatus` is the string union HIT | MISS | FROZEN; it is embedded into the
four-state `CacheState` so that the absence of STALE is a provable fact. -/
structure BodyMetadata where
  cacheStatus : Option CacheState := none
  cacheAgeMs : Option Int := none
  cacheExpiresInMs : Option Int := none
  responseTimeMs : Option Int := none
  requestId : Option String := none
  frozenSnapshot : Option Bool := none
  freezeReason : Option String := none
deriving DecidableEq, Repr

/-- interface BodyEphemerisPayload (bodyEphemerisCache.ts). -/
structure BodyEphemerisPayload where
  id : String
  timestamp : String
  x_au : Int
  y_au : Int
  z_au : Int
  vx : Option Int := none
  vy : Option Int := none
  vz : Option Int := none
  velocityUnit : Option String := none
  referenceFrame : Option String := none
  source : Option String := none
  range_au : Option Int := none
  range_rate_km_s : Option Int := none
  light_time_minutes : Option Int := none
  solar_elongation_deg : Option Int := none
  phase_angle_deg : Option Int := none
  illumination_fraction : Option Int := none
  apparent_magnitude : Option Int := none
  metadata : Option BodyMetadata := none
deriving DecidableEq, Repr

/-- interface CacheEntry (bodyEphemerisCache.ts). -/
structure BodyCacheEntry where
  payload : BodyEphemerisPayload
  cachedAt : Int
  expiresAt : Int
deriving DecidableEq, Repr

/-- The module state for one body id: the `cache` slot and the `inflight`
slot.  A pending in-flight promise is modelled by the outcome it will settle
with (`Except errMessage payload`). -/
structure BodyState where
  cache : Option BodyCacheEntry
  inflight : Option (Except String BodyEphemerisPayload) := none
deriving DecidableEq, Repr

/-- getFromCache (bodyEphemerisCache.ts, lines 46-56): expiry is enforced
lazily at lookup, deleting the entry.  The source calls `Date.now()` afresh
inside this function; it runs in the same synchronous segment as the
enclosing call, so the caller's `now` is used. -/
def getFromCache (now : Int) (st : BodyState) : Option BodyCacheEntry × BodyState :=
  match st.cache with
  | none => (none, st)
  | some entry =>
    if now ≥ entry.expiresAt then (none, { st with cache := none })
    else (some entry, st)

/-- The HIT decoration (getBodyEphemeris, lines 107-119): copy-and-extend of
the cached payload and its metadata. -/
def hitDecorateBody (now : Int) (cid : Option String) (entry : BodyCacheEntry) :
    BodyEphemerisPayload :=
  let ageMs := now - entry.cachedAt
  let base := entry.payload.metadata.getD {}
  { entry.payload with
    metadata := some { base with
      cacheStatus := some CacheState.HIT
      cacheAgeMs := some ageMs
      cacheExpiresInMs := some (max 0 (entry.expiresAt - now))
      requestId := cid.orElse (fun _ => base.requestId) } }

/-- The MISS decoration applied both by a coalesced waiter (lines 125-133)
and by the fetch-starting caller (lines 162-170); it does not touch
`requestId`. -/
def missDecorateBody (ttlMs : Int) (payload : BodyEphemerisPayload) :
    BodyEphemerisPayload :=
  let base := payload.metadata.getD {}
  { payload with
    metadata := some { base with
      cacheStatus := some CacheState.MISS
      cacheAgeMs := some 0
      cacheExpiresInMs := some ttlMs } }

/-- The FROZEN decoration (getBodyEphemeris, lines 181-192). -/
def frozenDecorateBody (now : Int) (cid : Option String) (errMessage : String)
    (entry : BodyCacheEntry) : BodyEphemerisPayload :=
  let ageMs := now - entry.cachedAt
  let base := entry.payload.metadata.getD {}
  { entry.payload with
    metadata := some { base with
      cacheStatus := some CacheState.FROZEN
      cacheAgeMs := some ageMs
      cacheExpiresInMs := some 0
      frozenSnapshot := some true
      freezeReason := some errMessage
      requestId := cid.orElse (fun _ => base.requestId) } }

/-- The observable outcome of one getBodyEphemeris call. -/
structure BodyCallOutcome where
  result : Except String BodyEphemerisPayload
  state : BodyState
  fetchesStarted : Nat
  joinedInflight : Bool
deriving DecidableEq, Repr

/-- getBodyEphemeris (bodyEphemerisCache.ts, lines 97-196), as a state
transformer for one body id.

Inputs standing for the asynchronous environment: `fetchOutcome` is what
`fetchFresh` would settle with if this call starts it, and `settleNow` is
`Date.now()` at the moment the fetch's `.then` callback runs (source lines
140-141).  A coalesced waiter (source lines 122-134) awaits the existing
promise *outside* the try/catch, so its rejection propagates without the
frozen fallback; by the time any waiter resumes, the fetch-starting call's
`.then`/`.finally` callbacks have already updated `cache` and cleared
`inflight`, and those effects are attributed to the starting call, so the
waiter leaves the state unchanged here.  The starting call is modelled to
completion: `inflight` is set at line 158 and cleared by `.finally` before
the awaited promise settles, hence it ends empty. -/
def getBodyEphemeris (ttlMs : Int) (forceRefresh : Bool) (cid : Option String)
    (now : Int) (fetchOutcome : Except String BodyEphemerisPayload)
    (settleNow : Int) (st : BodyState) : BodyCallOutcome :=
  let afterLookup :=
    if forceRefresh then (none, st) else getFromCache now st
  match afterLookup with
  | (some cached, st1) =>
    { result := .ok (hitDecorateBody now cid cached)
      state := st1
      fetchesStarted := 0
      joinedInflight := false }
  | (none, st1) =>
    match st1.inflight with
    | some existing =>
      match existing with
      | .ok payload =>
        { result := .ok (missDecorateBody ttlMs payload)
          state := st1
          fetchesStarted := 0
          joinedInflight := true }
      | .error e =>
        { result := .error e
          state := st1
          fetchesStarted := 0
          joinedInflight := true }
    | none =>
      match fetchOutcome with
      | .ok payload =>
        let entry : BodyCacheEntry :=
          { payload := payload
            cachedAt := settleNow
            expiresAt := settleNow + ttlMs }
        { result := .ok (missDecorateBody ttlMs payload)
          state := { st1 with cache := some entry, inflight := none }
          fetchesStarted := 1
          joinedInflight := false }
      | .error e =>
        match st1.cache with
        | some cached =>
          { result := .ok (frozenDecorateBody now cid e cached)
            state := { st1 with inflight := none }
            fetchesStarted := 1
            joinedInflight := false }
        | none =>
          { result := .error e
            state := { st1 with inflight := none }
            fetchesStarted := 1
            joinedInflight := false }

/-! ## Multi-body snapshot cache (ephemerisCache.ts)

The caches are keyed by snapshot mode (`state-vectors` / `full`); the two
modes use disjoint keys in both backends and never interact, so the state
below models the slots for one fixed mode. -/

/-- Environment of one call: whether `getRedisClient()` resolves to a client
(a configured, connected shared store) and whether a shared-store SET would
succeed.  Each GET has its own success flag, passed at the read site. -/
structure SnapEnv where
  clientReady : Bool
  writeOk : Bool
deriving DecidableEq, Repr

/-- A record held by the shared store under this mode's key, together with
the PX expiry (milliseconds) it was SET with (writeCache, line 172). -/
structure SharedEntry where
  record : CacheRecord
  px : Int
deriving DecidableEq, Repr

/-- Module state for one snapshot mode: the `memoryCache` slot, the shared
store's content under this mode's key, and the `inflightByMode` slot (a
pending refresh, modelled by the outcome it will settle with). -/
structure ModeState where
  memory : Option CacheRecord
  redis : Option SharedEntry
  inflight : Option (Except String SnapshotResult) := none
deriving DecidableEq, Repr

/-- readCache (ephemerisCache.ts, lines 141-158): prefer the shared store
when a client is ready; a raw value found there is parsed and also written
through to `memoryCache`; a GET error (`readOk = false`) is logged and falls
back to memory, as does an absent key or an absent client. -/
def readCache (readOk : Bool) (env : SnapEnv) (st : ModeState) :
    Option CacheRecord × ModeState :=
  if env.clientReady then
    if readOk then
      match st.redis with
      | some entry => (some entry.record, { st with memory := some entry.record })
      | none => (st.memory, st)
    else (st.memory, st)
  else (st.memory, st)

/-- writeCache (ephemerisCache.ts, lines 160-178): always set `memoryCache`;
additionally SET the shared store, with PX = staleUntil - cachedAt, only when
a client is ready and the backend computed by the caller is `redis`; a SET
error (`writeOk = false`) is logged and swallowed. -/
def writeCache (env : SnapEnv) (record : CacheRecord) (backend : CacheBackend)
    (st : ModeState) : ModeState :=
  let st1 := { st with memory := some record }
  if env.clientReady ∧ backend = CacheBackend.redis then
    if env.writeOk then
      { st1 with redis := some { record := record, px := record.staleUntil - record.cachedAt } }
    else st1
  else st1

/-- The EphemerisBody pushed for a fulfilled fetch (buildPlanetSnapshot,
lines 224-241). -/
def bodyOfVector (r : FetchedVector) : EphemerisBody :=
  { name := r.name
    x_au := r.x_au
    y_au := r.y_au
    z_au := r.z_au
    vx := r.vx_au_per_day
    vy := r.vy_au_per_day
    vz := r.vz_au_per_day
    velocityUnit := r.velocityUnit
    timestamp := r.timestamp
    range_au := r.range_au
    range_rate_km_s := r.range_rate_km_s
    light_time_minutes := r.light_time_minutes
    solar_elongation_deg := r.solar_elongation_deg
    phase_angle_deg := r.phase_angle_deg
    illumination_fraction := r.illumination_fraction
    apparent_magnitude := r.apparent_magnitude }

/-- The `fallbackBodies` Map built at lines 186-189: `Map.set` keyed by body
name makes the last body with a given name win, and `Map.get` is modelled by
searching the reversed list. -/
def fallbackFor (cachedBodies : List EphemerisBody) (name : String) :
    Option EphemerisBody :=
  cachedBodies.reverse.find? (fun b => b.name == name)

/-- Accumulator of the `results.forEach` aggregation loop (buildPlanetSnapshot,
lines 208-266). -/
structure BuildAcc where
  bodies : List EphemerisBody
  usedFallback : List String
  missing : List String
  timestamps : List String
  referenceFrame : String
  velocityUnit : String
deriving DecidableEq, Repr

/-- One iteration of the aggregation loop (lines 215-266): a fulfilled result
pushes its vector (updating frame/unit and collecting its timestamp); a
rejected one substitutes the previous snapshot's body of the same name when
one exists (recording the name in `usedFallback`), else records the name in
`missing`. -/
def processOne (cachedBodies : List EphemerisBody) (acc : BuildAcc)
    (cfg : PlanetConfig) (res : Except String FetchedVector) : BuildAcc :=
  match res with
  | .ok r =>
    { acc with
      referenceFrame := r.referenceFrame.getD acc.referenceFrame
      velocityUnit := r.velocityUnit.getD acc.velocityUnit
      timestamps := acc.timestamps ++ r.timestamp.toList
      bodies := acc.bodies ++ [bodyOfVector r] }
  | .error _ =>
    match fallbackFor cachedBodies cfg.name with
    | some fb =>
      { acc with
        usedFallback := acc.usedFallback ++ [cfg.name]
        timestamps := acc.timestamps ++ fb.timestamp.toList
        bodies := acc.bodies ++ [fb] }
    | none =>
      { acc with missing := acc.missing ++ [cfg.name] }

/-- The bodies of the previous record, keyed for fallback lookup
(buildPlanetSnapshot, lines 186-189). -/
def buildCachedBodies (cached : Option CacheRecord) : List EphemerisBody :=
  (cached.map (fun c => c.payload.bodies)).getD []

/-- The aggregation loop's starting accumulator (buildPlanetSnapshot, lines
208-213): empty lists, frame and velocity unit seeded from the previous
record's metadata with the documented defaults. -/
def buildInit (cached : Option CacheRecord) : BuildAcc :=
  { bodies := []
    usedFallback := []
    missing := []
    timestamps := []
    referenceFrame := (((cached.map (fun c => c.payload.metadata)).bind
      (fun m => m.referenceFrame)).getD "J2000-ECLIPTIC")
    velocityUnit := (((cached.map (fun c => c.payload.metadata)).bind
      (fun m => m.velocityUnit)).getD "AU/day") }

/-- The aggregation loop over the per-planet results (buildPlanetSnapshot,
lines 215-266). -/
def buildAcc (planets : List PlanetConfig)
    (fetches : List (Except String FetchedVector))
    (cached : Option CacheRecord) : BuildAcc :=
  (List.zip planets fetches).foldl
    (fun a pr => processOne (buildCachedBodies cached) a pr.1 pr.2)
    (buildInit cached)

/-- buildPlanetSnapshot (ephemerisCache.ts, lines 180-289).

`planets` is the PLANETS table (config/planets.ts, absent from the sources at
hand, so kept abstract), `fetches` the aligned outcomes of the per-planet
`fetchPlanetStateVector` calls (the loop at lines 192-202 catches each
rejection individually), `latencyMs` the measured fan-out latency and
`nowIso` the `new Date().toISOString()` fallback timestamp of line 273.
Returns the thrown error or the snapshot, along with the state as updated by
the initial readCache (line 185). -/
def buildPlanetSnapshot (planets : List PlanetConfig)
    (fetches : List (Except String FetchedVector)) (latencyMs : Int)
    (nowIso : String) (readOk : Bool) (env : SnapEnv) (st : ModeState) :
    Except String EphemerisSnapshot × ModeState :=
  let rd := readCache readOk env st
  let cached := rd.1
  let st1 := rd.2
  let acc := buildAcc planets fetches cached
  if acc.bodies = [] then (.error "No Horizons data available", st1)
  else
    (.ok
      { timestamp := acc.timestamps.head?.getD
          ((cached.map (fun c => c.payload.timestamp)).getD nowIso)
        metadata :=
          { source := some "NASA-JPL-Horizons"
            referenceFrame := some acc.referenceFrame
            distanceUnit := some "AU"
            velocityUnit := some acc.velocityUnit
            responseTimeMs := some latencyMs
            partFlag := some (decide (acc.usedFallback ≠ [] ∨ acc.missing ≠ []))
            fallbackBodies := if acc.usedFallback = [] then none else some acc.usedFallback
            missingBodies := if acc.missing = [] then none else some acc.missing }
        bodies := acc.bodies }, st1)

/-- The MISS decoration refreshSnapshot applies at lines 312-321 by
reassigning `payload.metadata` (copy-and-extend of the metadata object).
`nowIso` is `new Date(now).toISOString()`. -/
def missDecorateSnapshot (cfg : CacheConfig) (payload : EphemerisSnapshot)
    (backend : CacheBackend) (nowIso : String) (cid : Option String) :
    EphemerisSnapshot :=
  { payload with
    metadata := { payload.metadata with
      cacheStatus := some CacheState.MISS
      cacheBackend := some backend
      cacheAgeMs := some 0
      cacheExpiresInMs := some cfg.ttlMs
      cacheStale := some false
      generatedAt := some nowIso
      requestId := cid } }

/-- Per-call inputs of one refreshSnapshot run: the aligned fetch outcomes,
the measured fan-out latency, the ISO fallback timestamp used inside the
build, the success of the shared-store read inside the build, and
`Date.now()` (with its ISO rendering) at line 298. -/
structure RefreshInputs where
  fetches : List (Except String FetchedVector)
  latencyMs : Int
  buildNowIso : String
  readOk : Bool
  now : Int
  nowIso : String
deriving DecidableEq, Repr

/-- refreshSnapshot (ephemerisCache.ts, lines 291-337).

On build success it stores the record {payload, now, now+TTL, now+TTL+STALE}
through writeCache, then reassigns `payload.metadata` in place with the MISS
decoration.  The freshly stored in-memory record aliases this payload object,
so the memory slot ends up holding the decorated payload, while the
shared-store copy — serialized inside writeCache, before the reassignment —
holds the undecorated one. -/
def refreshSnapshot (cfg : CacheConfig) (planets : List PlanetConfig)
    (ri : RefreshInputs) (env : SnapEnv) (cid : Option String)
    (st : ModeState) : Except String SnapshotResult × ModeState :=
  let backend := if env.clientReady then CacheBackend.redis else CacheBackend.memory
  match buildPlanetSnapshot planets ri.fetches ri.latencyMs ri.buildNowIso ri.readOk env st with
  | (.error e, st1) => (.error e, st1)
  | (.ok payload, st1) =>
    let record : CacheRecord :=
      { payload := payload
        cachedAt := ri.now
        expiresAt := ri.now + cfg.ttlMs
        staleUntil := ri.now + cfg.ttlMs + cfg.staleMs }
    let st2 := writeCache env record backend st1
    let decorated := missDecorateSnapshot cfg payload backend ri.nowIso cid
    let st3 := { st2 with memory := some { record with payload := decorated } }
    (.ok
      { payload := decorated
        cacheState := CacheState.MISS
        cacheBackend := backend
        cacheAgeMs := 0 }, st3)

/-- decoratePayloadMetadata (ephemerisCache.ts, lines 339-362): copy-and-extend
of the payload and its metadata.  `genIso` is the back-computed ISO timestamp
`new Date(Date.now() - cacheAgeMs).toISOString()` of line 359, used only when
the payload does not already carry a `generatedAt`. -/
def decoratePayloadMetadata (cfg : CacheConfig) (payload : EphemerisSnapshot)
    (cacheState : CacheState) (backend : CacheBackend) (cacheAgeMs : Int)
    (genIso : String) (correlationId : Option String) : EphemerisSnapshot :=
  { payload with
    metadata := { payload.metadata with
      cacheStatus := some cacheState
      cacheBackend := some backend
      cacheAgeMs := some cacheAgeMs
      cacheExpiresInMs := some (max 0 (cfg.ttlMs - cacheAgeMs))
      cacheStale := some (decide (cacheState = CacheState.STALE))
      requestId := correlationId.orElse (fun _ => payload.metadata.requestId)
      generatedAt := some (payload.metadata.generatedAt.getD genIso) } }

/-- The success branch of awaiting a refresh (getSnapshot, lines 417-430):
decorate the shared result with this caller's correlation id, falling back to
the request id already on the payload. -/
def decorateAwaited (cfg : CacheConfig) (genIso : String) (cid : Option String)
    (result : SnapshotResult) : SnapshotResult :=
  { result with
    payload := decoratePayloadMetadata cfg result.payload result.cacheState
      result.cacheBackend result.cacheAgeMs genIso
      (cid.orElse (fun _ => result.payload.metadata.requestId)) }

/-- The FROZEN overlay of the catch branch (getSnapshot, lines 443-450),
applied on top of the FROZEN decoration; note `requestId` is set to this
caller's correlation id even when absent. -/
def frozenOverlay (errMessage : String) (cid : Option String)
    (payload : EphemerisSnapshot) : EphemerisSnapshot :=
  { payload with
    metadata := { payload.metadata with
      cacheStale := some true
      cacheExpiresInMs := some 0
      frozenSnapshot := some true
      freezeReason := some errMessage
      requestId := cid } }

/-- Options of one getSnapshot call (mode is fixed by the state). -/
structure GetOptions where
  forceRefresh : Bool := false
  correlationId : Option String := none
deriving DecidableEq, Repr

/-- Per-call environment inputs of one getSnapshot call: the success of the
shared-store read at line 374, the inputs of the refresh this call would
start, the success of the shared-store read in the frozen-fallback path
(line 432), `Date.now()` at entry (line 371) and the back-computed ISO
timestamp for decoration. -/
structure SnapshotCallInputs where
  readOk1 : Bool
  refresh : RefreshInputs
  readOk3 : Bool
  now : Int
  genIso : String
deriving DecidableEq, Repr

/-- The observable outcome of one getSnapshot call. -/
structure CallOutcome where
  result : Except String SnapshotResult
  state : ModeState
  startedBackground : Bool
  startedSync : Bool
  joinedInflight : Bool
  refreshesStarted : Nat
deriving DecidableEq, Repr

/-- The shared tail of getSnapshot (lines 417-475): await the refresh outcome;
on success decorate it for this caller; on error fall back to
`memoryCache.get(mode) ?? await readCache(mode)` and serve it FROZEN, else
rethrow. -/
def awaitRefresh (cfg : CacheConfig) (env : SnapEnv) (readOk3 : Bool)
    (now : Int) (genIso : String) (cid : Option String)
    (o : Except String SnapshotResult) (st : ModeState) :
    Except String SnapshotResult × ModeState :=
  match o with
  | .ok result => (.ok (decorateAwaited cfg genIso cid result), st)
  | .error e =>
    let backend := if env.clientReady then CacheBackend.redis else CacheBackend.memory
    let frozenServe : CacheRecord → ModeState → Except String SnapshotResult × ModeState :=
      fun cached st2 =>
        let cacheAgeMs := now - cached.cachedAt
        let payload := frozenOverlay e cid
          (decoratePayloadMetadata cfg cached.payload CacheState.FROZEN backend
            cacheAgeMs genIso cid)
        (.ok
          { payload := payload
            cacheState := CacheState.FROZEN
            cacheBackend := backend
            cacheAgeMs := cacheAgeMs }, st2)
    match st.memory with
    | some cached => frozenServe cached st
    | none =>
      match readCache readOk3 env st with
      | (some cached, st2) => frozenServe cached st2
      | (none, st2) => (.error e, st2)

/-- The freshness consultation of getSnapshot (lines 373-403): when not
forced, read the cache; a record fresh (age < TTL) or stale-but-allowed
(age < TTL + STALE) is served HIT resp. STALE, a stale serve additionally
kicking off a fire-and-forget revalidation when the in-flight slot is free
(occupying it with the refresh, whose store writes land at settlement).
Returns the served result, the state after the call, and whether a
background revalidation was started; `none` when the call must go on to the
synchronous-refresh phase. -/
def serveFromCache (cfg : CacheConfig) (planets : List PlanetConfig)
    (env : SnapEnv) (ins : SnapshotCallInputs) (opts : GetOptions)
    (st : ModeState) : Option (SnapshotResult × ModeState × Bool) :=
  if opts.forceRefresh then none
  else
    match readCache ins.readOk1 env st with
    | (some cached, st1) =>
      let backend := if env.clientReady then CacheBackend.redis else CacheBackend.memory
      let cacheAgeMs := ins.now - cached.cachedAt
      let isFresh := decide (cacheAgeMs < cfg.ttlMs)
      let isStaleButAllowed :=
        !isFresh && decide (cacheAgeMs < cfg.ttlMs + cfg.staleMs)
      if isFresh || isStaleButAllowed then
        let cacheState := if isFresh then CacheState.HIT else CacheState.STALE
        let startBg := isStaleButAllowed && st1.inflight.isNone
        let st2 :=
          if startBg then
            { st1 with
              inflight := some (refreshSnapshot cfg planets ins.refresh env none st1).1 }
          else st1
        some
          ({ payload := decoratePayloadMetadata cfg cached.payload cacheState
               backend cacheAgeMs ins.genIso opts.correlationId
             cacheState := cacheState
             cacheBackend := backend
             cacheAgeMs := cacheAgeMs }, st2, startBg)
      else none
    | (none, _) => none

/-- getSnapshot (ephemerisCache.ts, lines 364-476), as a state transformer for
one snapshot mode.

A fire-and-forget stale revalidation only occupies the in-flight slot with the
outcome its refresh will settle with (computed from this call's refresh
inputs, with the undefined correlation id of line 386); its store writes land
when it settles and are not part of this call.  A call that starts a
synchronous refresh is modelled to completion, so its in-flight slot is set
and, the caller having awaited settlement, cleared again; a call that joins an
existing in-flight refresh likewise resumes after the slot was cleared by the
settling refresh, whose store writes are attributed to the call that started
it. -/
def getSnapshot (cfg : CacheConfig) (planets : List PlanetConfig)
    (env : SnapEnv) (ins : SnapshotCallInputs) (opts : GetOptions)
    (st : ModeState) : CallOutcome :=
  let now := ins.now
  match serveFromCache cfg planets env ins opts st with
  | some (result, st2, startBg) =>
    { result := .ok result
      state := st2
      startedBackground := startBg
      startedSync := false
      joinedInflight := false
      refreshesStarted := if startBg then 1 else 0 }
  | none =>
    -- State at line 405: when the consultation at line 374 ran, its
    -- write-through may have refreshed the memory slot (a record too old to
    -- serve); when it was skipped by forceRefresh, the entry state is intact.
    let stMiss :=
      if opts.forceRefresh then st else (readCache ins.readOk1 env st).2
    match stMiss.inflight with
    | some pending =>
      let ar := awaitRefresh cfg env ins.readOk3 now ins.genIso
        opts.correlationId pending stMiss
      { result := ar.1
        state := ar.2
        startedBackground := false
        startedSync := false
        joinedInflight := true
        refreshesStarted := 0 }
    | none =>
      let rf := refreshSnapshot cfg planets ins.refresh env opts.correlationId stMiss
      let ar := awaitRefresh cfg env ins.readOk3 now ins.genIso
        opts.correlationId rf.1 rf.2
      { result := ar.1
        state := ar.2
        startedBackground := false
        startedSync := true
        joinedInflight := false
        refreshesStarted := 1 }

/-! ## Simultaneous-arrival scenarios

K callers issue the same request at once.  Under the single-threaded event
loop the first caller runs its synchronous segment to the first await,
occupying the in-flight slot; the remaining callers then run theirs against
the mid-flight state, in which the slot holds the pending promise (the
outcome it will settle with).  Each caller below is one run of the main
embedding function. -/

/-- K simultaneous forced-refresh calls to getBodyEphemeris for one body id,
listed by correlation id.  The first caller sets `inflight` (source line 158)
before suspending; `stMid` is the state the others observe. -/
def bodyBurst (ttlMs : Int) (cids : List (Option String)) (now : Int)
    (fetchOutcome : Except String BodyEphemerisPayload) (settleNow : Int)
    (st : BodyState) : List BodyCallOutcome :=
  match cids with
  | [] => []
  | c0 :: rest =>
    let first := getBodyEphemeris ttlMs true c0 now fetchOutcome settleNow st
    let stMid := { st with inflight := some fetchOutcome }
    first :: rest.map (fun c => getBodyEphemeris ttlMs true c now fetchOutcome settleNow stMid)

/-- K simultaneous forced-refresh calls to getSnapshot for one mode, listed
by correlation id.  The first caller occupies `inflightByMode` (line 407)
with the refresh it starts before suspending; `stMid` is the state the
others observe. -/
def snapshotBurst (cfg : CacheConfig) (planets : List PlanetConfig)
    (env : SnapEnv) (ins : SnapshotCallInputs) (cids : List (Option String))
    (st : ModeState) : List CallOutcome :=
  match cids with
  | [] => []
  | c0 :: rest =>
    let first := getSnapshot cfg planets env ins
      { forceRefresh := true, correlationId := c0 } st
    let stMid := { st with
      inflight := some (refreshSnapshot cfg planets ins.refresh env c0 st).1 }
    first :: rest.map (fun c => getSnapshot cfg planets env ins
      { forceRefresh := true, correlationId := c } stMid)

/-- Strip the per-caller correlation field, for statements of the form
"identical up to requestId". -/
def eraseRequestId (p : EphemerisSnapshot) : EphemerisSnapshot :=
  { p with metadata := { p.metadata with requestId := none } }

/-! ## Helper lemmas -/

theorem bodyStatus_hit {p : BodyEphemerisPayload} {now : Int}
    {cid : Option String} {entry : BodyCacheEntry}
    (h : hitDecorateBody now cid entry = p) :
    ∃ m s, p.metadata = some m ∧ m.cacheStatus = some s ∧ s ≠ CacheState.STALE := by
  subst h
  exact ⟨_, CacheState.HIT, rfl, rfl, by decide⟩

theorem bodyStatus_miss {p q : BodyEphemerisPayload} {ttlMs : Int}
    (h : missDecorateBody ttlMs q = p) :
    ∃ m s, p.metadata = some m ∧ m.cacheStatus = some s ∧ s ≠ CacheState.STALE := by
  subst h
  exact ⟨_, CacheState.MISS, rfl, rfl, by decide⟩

theorem bodyStatus_frozen {p : BodyEphemerisPayload} {now : Int}
    {cid : Option String} {e : String} {entry : BodyCacheEntry}
    (h : frozenDecorateBody now cid e entry = p) :
    ∃ m s, p.metadata = some m ∧ m.cacheStatus = some s ∧ s ≠ CacheState.STALE := by
  subst h
  exact ⟨_, CacheState.FROZEN, rfl, rfl, by decide⟩

/-! ## Concrete fixtures for witnesses and counterexamples -/

def samplePayload : BodyEphemerisPayload :=
  { id := "moon", timestamp := "2026-01-01T00:00:00Z", x_au := 1, y_au := 2, z_au := 57 }

def sampleEntry : BodyCacheEntry :=
  { payload := samplePayload, cachedAt := 0, expiresAt := 50 }

def expiredBodyState : BodyState :=
  { cache := some sampleEntry, inflight := none }

def joinRejectedState : BodyState :=
  { cache := some sampleEntry, inflight := some (Except.error "Horizons timeout") }

def emptyBodyState : BodyState :=
  { cache := none, inflight := none }

def cfg0 : CacheConfig := { ttlMs := 120000, staleMs := 60000 }

def env0 : SnapEnv := { clientReady := false, writeOk := true }

def planets0 : List PlanetConfig := [{ horizonsId := "499", name := "Mars" }]

def vec0 : FetchedVector :=
  { name := "Mars", x_au := 3, y_au := 4, z_au := 5,
    timestamp := some "2026-01-01T00:00:00Z" }

def ri0 : RefreshInputs :=
  { fetches := [Except.ok vec0], latencyMs := 42,
    buildNowIso := "2026-01-01T00:00:01Z", readOk := true,
    now := 1000, nowIso := "2026-01-01T00:00:01Z" }

def ins0 : SnapshotCallInputs :=
  { readOk1 := true, refresh := ri0, readOk3 := true,
    now := 1200, genIso := "2026-01-01T00:00:02Z" }

def emptyModeState : ModeState :=
  { memory := none, redis := none, inflight := none }

def env1 : SnapEnv := { clientReady := true, writeOk := true }

def sampleSnapshot : EphemerisSnapshot :=
  { timestamp := "2026-01-01T00:00:00Z"
    metadata := { source := some "NASA-JPL-Horizons" }
    bodies := [bodyOfVector vec0] }

def sampleRecord : CacheRecord :=
  { payload := sampleSnapshot, cachedAt := 0, expiresAt := 120000, staleUntil := 180000 }

def sharedEntry0 : SharedEntry := { record := sampleRecord, px := 180000 }

def redisModeState : ModeState :=
  { memory := none, redis := some sharedEntry0, inflight := none }

def stHit : ModeState :=
  { memory := some sampleRecord, redis := none, inflight := none }

def sampleResult : SnapshotResult :=
  { payload := sampleSnapshot, cacheState := CacheState.MISS
    cacheBackend := CacheBackend.memory, cacheAgeMs := 0 }

def vecVenus : FetchedVector := { name := "Venus", x_au := 7, y_au := 8, z_au := 9 }

def mismatchRecord : CacheRecord :=
  { payload := { timestamp := "T", metadata := {}, bodies := [bodyOfVector vecVenus] }
    cachedAt := 0, expiresAt := 120000, staleUntil := 180000 }

def stMismatch : ModeState :=
  { memory := some mismatchRecord, redis := none, inflight := none }

def riFail : RefreshInputs :=
  { fetches := [Except.error "boom"], latencyMs := 5, buildNowIso := "T1",
    readOk := true, now := 1000, nowIso := "T1" }

def insFail : SnapshotCallInputs :=
  { readOk1 := true, refresh := riFail, readOk3 := true, now := 1200, genIso := "G" }

/-! ## Claims -/

/-- Claim C10: the single-body cache deletes an entry at lookup time as soon
as now ≥ expiresAt, so on every non-forced read path a record never outlives
its expiry; consequently a returned payload's cacheStatus is only ever HIT,
MISS or FROZEN — never STALE — and a non-forced request arriving at or after
expiry either awaits an upstream fetch (joining the in-flight one or starting
its own) or, when the fetch it started fails, finds no fallback record in the
cache and propagates the failure. -/
theorem C10_single_body_expiry_no_stale
    (ttlMs : Int) (forceRefresh : Bool) (cid : Option String) (now : Int)
    (fetchOutcome : Except String BodyEphemerisPayload) (settleNow : Int)
    (st : BodyState) :
    (∀ entry, st.cache = some entry → now ≥ entry.expiresAt →
      getFromCache now st = (none, { st with cache := none })) ∧
    (∀ p, (getBodyEphemeris ttlMs forceRefresh cid now fetchOutcome settleNow st).result = .ok p →
      ∃ m s, p.metadata = some m ∧ m.cacheStatus = some s ∧ s ≠ CacheState.STALE) ∧
    (∀ entry, forceRefresh = false → st.cache = some entry → now ≥ entry.expiresAt →
      ((st.inflight.isSome →
          (getBodyEphemeris ttlMs forceRefresh cid now fetchOutcome settleNow st).joinedInflight = true ∧
          (getBodyEphemeris ttlMs forceRefresh cid now fetchOutcome settleNow st).fetchesStarted = 0) ∧
       (st.inflight = none →
          (getBodyEphemeris ttlMs forceRefresh cid now fetchOutcome settleNow st).fetchesStarted = 1) ∧
       (st.inflight = none → ∀ e, fetchOutcome = .error e →
          (getBodyEphemeris ttlMs forceRefresh cid now fetchOutcome settleNow st).result = .error e))) := by
  refine ⟨?_, ?_, ?_⟩
  · intro entry hc hle
    simp [getFromCache, hc, hle]
  · intro p hp
    unfold getBodyEphemeris at hp
    cases hF : forceRefresh <;> rw [hF] at hp
    · cases hc : st.cache <;> simp [getFromCache, hc] at hp
      · cases hi : st.inflight with
        | some existing =>
          rw [hi] at hp
          cases existing with
          | error e => simp at hp
          | ok q =>
            simp at hp
            exact bodyStatus_miss hp
        | none =>
          rw [hi] at hp
          cases hfo : fetchOutcome <;> rw [hfo] at hp
          · simp [hc] at hp
          · simp at hp
            exact bodyStatus_miss hp
      · rename_i entry
        by_cases hle : now ≥ entry.expiresAt
        · simp [hle] at hp
          cases hi : st.inflight with
          | some existing =>
            rw [hi] at hp
            cases existing with
            | error e => simp at hp
            | ok q =>
              simp at hp
              exact bodyStatus_miss hp
          | none =>
            rw [hi] at hp
            cases hfo : fetchOutcome <;> rw [hfo] at hp <;> simp at hp
            exact bodyStatus_miss hp
        · simp [hle] at hp
          exact bodyStatus_hit hp
    · cases hi : st.inflight with
      | some existing =>
        simp [hi] at hp
        cases existing with
        | error e => simp at hp
        | ok q =>
          simp at hp
          exact bodyStatus_miss hp
      | none =>
        simp [hi] at hp
        cases hfo : fetchOutcome <;> rw [hfo] at hp
        · simp at hp
          cases hcc : st.cache <;> rw [hcc] at hp <;> simp at hp
          exact bodyStatus_frozen hp
        · simp at hp
          exact bodyStatus_miss hp
  · intro entry hF hc hle
    subst hF
    refine ⟨?_, ?_, ?_⟩
    · intro hinf
      obtain ⟨o, ho⟩ := Option.isSome_iff_exists.mp hinf
      simp [getBodyEphemeris, getFromCache, hc, hle, ho]
      cases o <;> simp
    · intro hinf
      simp [getBodyEphemeris, getFromCache, hc, hle, hinf]
      cases fetchOutcome <;> simp
    · intro hinf e hfe
      subst hfe
      simp [getBodyEphemeris, getFromCache, hc, hle, hinf]

/-- Claim C10 witness: at a concrete expired entry, the lookup deletes it and
a failing fetch propagates with no frozen fallback. -/
theorem C10_single_body_expiry_no_stale_witness :
    (100 : Int) ≥ sampleEntry.expiresAt ∧
    getFromCache 100 expiredBodyState = (none, { expiredBodyState with cache := none }) ∧
    (getBodyEphemeris 60000 false none 100 (Except.error "boom") 100 expiredBodyState).result
      = Except.error "boom" := by
  have h := C10_single_body_expiry_no_stale 60000 false none 100
    (Except.error "boom") 100 expiredBodyState
  exact ⟨by decide, h.1 sampleEntry rfl (by decide),
    (h.2.2 sampleEntry rfl rfl (by decide)).2.2 rfl "boom" rfl⟩

/-- Claim C5 counterexample: a forced call that joins an in-flight fetch which
rejects has a previous record in the cache, yet the rejection propagates (the
await of the shared promise is outside the try/catch), instead of the FROZEN
decoration the claim requires for every call whose upstream fetch fails. -/
theorem C5_counterexample :
    joinRejectedState.cache = some sampleEntry ∧
    (getBodyEphemeris 60000 true (some "req-1") 100 (Except.ok samplePayload) 100
        joinRejectedState).result = Except.error "Horizons timeout" :=
  ⟨rfl, rfl⟩

/-- Claim C5 (amended): for every call to getBodyEphemeris that starts the
upstream fetch itself (no fetch already in flight) and whose fetch fails: if
a record for the body is in the cache map at failure time — possible only
under forceRefresh, the non-forced lookup having deleted any expired entry —
it is returned decorated with cacheStatus FROZEN, frozenSnapshot true,
freezeReason the error message and cacheExpiresInMs 0; with no record the
failure propagates, as it does on every non-forced path; a call that joined
an already in-flight fetch propagates that fetch's rejection directly. -/
theorem C5_single_body_frozen_on_own_fetch_failure
    (ttlMs : Int) (cid : Option String) (now : Int) (e : String)
    (settleNow : Int) (st : BodyState) (hin : st.inflight = none) :
    (∀ entry, st.cache = some entry →
      (getBodyEphemeris ttlMs true cid now (Except.error e) settleNow st).result
        = Except.ok (frozenDecorateBody now cid e entry) ∧
      ∃ m, (frozenDecorateBody now cid e entry).metadata = some m ∧
        m.cacheStatus = some CacheState.FROZEN ∧ m.frozenSnapshot = some true ∧
        m.freezeReason = some e ∧ m.cacheExpiresInMs = some 0) ∧
    (st.cache = none →
      (getBodyEphemeris ttlMs true cid now (Except.error e) settleNow st).result
        = Except.error e) ∧
    (∀ st1, getFromCache now st = (none, st1) →
      (getBodyEphemeris ttlMs false cid now (Except.error e) settleNow st).result
        = Except.error e) ∧
    (∀ (st2 : BodyState) (fo : Except String BodyEphemerisPayload),
      st2.inflight = some (Except.error e) →
      (getBodyEphemeris ttlMs true cid now fo settleNow st2).result
        = Except.error e) := by
  refine ⟨?_, ?_, ?_, ?_⟩
  · intro entry hc
    refine ⟨?_, ⟨_, rfl, rfl, rfl, rfl, rfl⟩⟩
    simp [getBodyEphemeris, hin, hc]
  · intro hc
    simp [getBodyEphemeris, hin, hc]
  · intro st1 hlk
    have h1 : st1.cache = none ∧ st1.inflight = st.inflight := by
      unfold getFromCache at hlk
      cases hc : st.cache with
      | none =>
        rw [hc] at hlk
        cases hlk
        exact ⟨hc, rfl⟩
      | some entry =>
        rw [hc] at hlk
        dsimp only at hlk
        by_cases hle : now ≥ entry.expiresAt
        · rw [if_pos hle] at hlk
          cases hlk
          exact ⟨rfl, rfl⟩
        · rw [if_neg hle] at hlk
          cases hlk
    unfold getBodyEphemeris
    rw [if_neg (by simp), hlk]
    simp only [h1.2, hin, h1.1]
  · intro st2 fo h2
    simp [getBodyEphemeris, h2]

/-- Claim C5 witness for the amended theorem: a concrete forced call whose
own fetch fails with a record present returns it FROZEN. -/
theorem C5_single_body_frozen_witness :
    expiredBodyState.inflight = none ∧
    (getBodyEphemeris 60000 true (some "r") 100 (Except.error "boom") 100
        expiredBodyState).result
      = Except.ok (frozenDecorateBody 100 (some "r") "boom" sampleEntry) := by
  have h := C5_single_body_frozen_on_own_fetch_failure 60000 (some "r") 100 "boom"
    100 expiredBodyState rfl
  exact ⟨rfl, (h.1 sampleEntry rfl).1⟩

theorem eraseRequestId_decorateAwaited (cfg : CacheConfig) (genIso : String)
    (c c' : Option String) (r : SnapshotResult) :
    eraseRequestId (decorateAwaited cfg genIso c r).payload
      = eraseRequestId (decorateAwaited cfg genIso c' r).payload := by
  simp [eraseRequestId, decorateAwaited, decoratePayloadMetadata]

/-- Claim C2: at most one upstream refresh per body id / per snapshot mode is
in flight at a time: K ≥ 1 simultaneous forced-refresh callers (one list
entry per caller's correlation id) cause exactly one refresh fan-out
(multi-body) resp. exactly one fetchFresh call (single-body), every caller's
result is a success carrying the one shared payload, and any two callers'
payloads agree up to the per-caller requestId decoration (for the single-body
cache they are literally identical). -/
theorem C2_request_coalescing
    (cfg : CacheConfig) (planets : List PlanetConfig) (env : SnapEnv)
    (ins : SnapshotCallInputs) (c0 : Option String) (rest : List (Option String))
    (st : ModeState) (ttlMs now settleNow : Int) (d0 : Option String)
    (drest : List (Option String)) (p : BodyEphemerisPayload) (stb : BodyState)
    (hin : st.inflight = none) (hbin : stb.inflight = none)
    (hok : ∃ r, (refreshSnapshot cfg planets ins.refresh env c0 st).1 = Except.ok r) :
    (((snapshotBurst cfg planets env ins (c0 :: rest) st).map
        (fun o => o.refreshesStarted)).sum = 1) ∧
    (∀ o ∈ snapshotBurst cfg planets env ins (c0 :: rest) st,
        ∃ res, o.result = Except.ok res) ∧
    (∀ o o', o ∈ snapshotBurst cfg planets env ins (c0 :: rest) st →
        o' ∈ snapshotBurst cfg planets env ins (c0 :: rest) st →
        ∀ res res', o.result = Except.ok res → o'.result = Except.ok res' →
        res.cacheState = res'.cacheState ∧ res.cacheBackend = res'.cacheBackend ∧
        res.cacheAgeMs = res'.cacheAgeMs ∧
        eraseRequestId res.payload = eraseRequestId res'.payload) ∧
    (((bodyBurst ttlMs (d0 :: drest) now (Except.ok p) settleNow stb).map
        (fun o => o.fetchesStarted)).sum = 1) ∧
    (∀ o ∈ bodyBurst ttlMs (d0 :: drest) now (Except.ok p) settleNow stb,
        o.result = Except.ok (missDecorateBody ttlMs p)) := by
  obtain ⟨r, hr⟩ := hok
  have hburst : snapshotBurst cfg planets env ins (c0 :: rest) st
      = getSnapshot cfg planets env ins { forceRefresh := true, correlationId := c0 } st ::
        rest.map (fun c => getSnapshot cfg planets env ins
          { forceRefresh := true, correlationId := c }
          { st with inflight := some (Except.ok r) }) := by
    simp only [snapshotBurst]
    rw [hr]
  have hfirst_res :
      (getSnapshot cfg planets env ins { forceRefresh := true, correlationId := c0 } st).result
        = Except.ok (decorateAwaited cfg ins.genIso c0 r) := by
    simp [getSnapshot, serveFromCache, hin, awaitRefresh, hr]
  have hfirst_cnt :
      (getSnapshot cfg planets env ins { forceRefresh := true, correlationId := c0 } st).refreshesStarted
        = 1 := by
    simp [getSnapshot, serveFromCache, hin, hr]
  have hjoin : ∀ c, getSnapshot cfg planets env ins
      { forceRefresh := true, correlationId := c }
      { st with inflight := some (Except.ok r) }
      = { result := Except.ok (decorateAwaited cfg ins.genIso c r)
          state := { st with inflight := some (Except.ok r) }
          startedBackground := false
          startedSync := false
          joinedInflight := true
          refreshesStarted := 0 } := by
    intro c
    rfl
  have hall : ∀ o ∈ snapshotBurst cfg planets env ins (c0 :: rest) st,
      ∃ c, o.result = Except.ok (decorateAwaited cfg ins.genIso c r) := by
    rw [hburst]
    intro o ho
    rcases List.mem_cons.mp ho with h | h
    · exact ⟨c0, h ▸ hfirst_res⟩
    · obtain ⟨c, _, hc⟩ := List.mem_map.mp h
      exact ⟨c, hc ▸ (by rw [hjoin c])⟩
  have hbburst : bodyBurst ttlMs (d0 :: drest) now (Except.ok p) settleNow stb
      = getBodyEphemeris ttlMs true d0 now (Except.ok p) settleNow stb ::
        drest.map (fun c => getBodyEphemeris ttlMs true c now (Except.ok p) settleNow
          { stb with inflight := some (Except.ok p) }) := by
    simp only [bodyBurst]
  have hbfirst_res :
      (getBodyEphemeris ttlMs true d0 now (Except.ok p) settleNow stb).result
        = Except.ok (missDecorateBody ttlMs p) := by
    simp [getBodyEphemeris, hbin]
  have hbfirst_cnt :
      (getBodyEphemeris ttlMs true d0 now (Except.ok p) settleNow stb).fetchesStarted = 1 := by
    simp [getBodyEphemeris, hbin]
  have hbjoin : ∀ c, getBodyEphemeris ttlMs true c now (Except.ok p) settleNow
      { stb with inflight := some (Except.ok p) }
      = { result := Except.ok (missDecorateBody ttlMs p)
          state := { stb with inflight := some (Except.ok p) }
          fetchesStarted := 0
          joinedInflight := true } := by
    intro c
    rfl
  refine ⟨?_, ?_, ?_, ?_, ?_⟩
  · rw [hburst]
    simp only [List.map_cons, List.map_map, List.sum_cons, hfirst_cnt]
    have hz : ∀ x ∈ rest.map ((fun o => o.refreshesStarted) ∘
        (fun c => getSnapshot cfg planets env ins
          { forceRefresh := true, correlationId := c }
          { st with inflight := some (Except.ok r) })), x = 0 := by
      intro x hx
      obtain ⟨c, _, hc⟩ := List.mem_map.mp hx
      rw [← hc]
      simp [Function.comp, hjoin c]
    rw [List.sum_eq_zero hz]
    rfl
  · intro o ho
    obtain ⟨c, hc⟩ := hall o ho
    exact ⟨_, hc⟩
  · intro o o' ho ho' res res' hres hres'
    obtain ⟨c, hc⟩ := hall o ho
    obtain ⟨c', hc'⟩ := hall o' ho'
    have h1 : res = decorateAwaited cfg ins.genIso c r := by
      have := hres.symm.trans hc
      exact Except.ok.inj this
    have h2 : res' = decorateAwaited cfg ins.genIso c' r := by
      have := hres'.symm.trans hc'
      exact Except.ok.inj this
    subst h1
    subst h2
    exact ⟨rfl, rfl, rfl, eraseRequestId_decorateAwaited cfg ins.genIso c c' r⟩
  · rw [hbburst]
    simp only [List.map_cons, List.map_map, List.sum_cons, hbfirst_cnt]
    have hz : ∀ x ∈ drest.map ((fun o => o.fetchesStarted) ∘
        (fun c => getBodyEphemeris ttlMs true c now (Except.ok p) settleNow
          { stb with inflight := some (Except.ok p) })), x = 0 := by
      intro x hx
      obtain ⟨c, _, hc⟩ := List.mem_map.mp hx
      rw [← hc]
      simp [Function.comp, hbjoin c]
    rw [List.sum_eq_zero hz]
    rfl
  · rw [hbburst]
    intro o ho
    rcases List.mem_cons.mp ho with h | h
    · exact h ▸ hbfirst_res
    · obtain ⟨c, _, hc⟩ := List.mem_map.mp h
      exact hc ▸ (by rw [hbjoin c])

/-- Claim C2 witness: two simultaneous forced-refresh callers on each cache
cause exactly one refresh fan-out resp. one upstream fetch. -/
theorem C2_request_coalescing_witness :
    emptyModeState.inflight = none ∧
    (((snapshotBurst cfg0 planets0 env0 ins0 [some "a", some "b"] emptyModeState).map
        (fun o => o.refreshesStarted)).sum = 1) ∧
    (((bodyBurst 60000 [some "a", some "b"] 100 (Except.ok samplePayload) 100
        emptyBodyState).map (fun o => o.fetchesStarted)).sum = 1) := by
  have h := C2_request_coalescing cfg0 planets0 env0 ins0 (some "a") [some "b"]
    emptyModeState 60000 100 100 (some "a") [some "b"] samplePayload
    emptyBodyState rfl rfl ⟨_, rfl⟩
  exact ⟨rfl, h.1, h.2.2.2.1⟩

theorem readCache_redis (ro : Bool) (env : SnapEnv) (st : ModeState) :
    (readCache ro env st).2.redis = st.redis := by
  unfold readCache
  repeat' split
  all_goals rfl

theorem readCache_inflight (ro : Bool) (env : SnapEnv) (st : ModeState) :
    (readCache ro env st).2.inflight = st.inflight := by
  unfold readCache
  repeat' split
  all_goals rfl

theorem serveFromCache_state (cfg : CacheConfig) (planets : List PlanetConfig)
    (env : SnapEnv) (ins : SnapshotCallInputs) (opts : GetOptions)
    (st : ModeState) (r : SnapshotResult) (st2 : ModeState) (bg : Bool)
    (h : serveFromCache cfg planets env ins opts st = some (r, st2, bg)) :
    st2.redis = st.redis ∧ st2.memory = (readCache ins.readOk1 env st).2.memory := by
  unfold serveFromCache at h
  split at h
  · exact absurd h (by simp)
  · rcases hrd : readCache ins.readOk1 env st with ⟨cached, st1⟩
    rw [hrd] at h
    cases cached with
    | none => exact absurd h (by simp)
    | some c =>
      dsimp only at h
      split at h
      · simp only [Option.some.injEq, Prod.mk.injEq] at h
        obtain ⟨-, hst2, -⟩ := h
        have hr1 := readCache_redis ins.readOk1 env st
        rw [hrd] at hr1
        rw [← hst2]
        constructor
        · split
          · exact hr1
          · exact hr1
        · split
          · rfl
          · rfl
      · exact absurd h (by simp)

theorem awaitRefresh_redis (cfg : CacheConfig) (env : SnapEnv) (ro3 : Bool)
    (now : Int) (genIso : String) (cid : Option String)
    (o : Except String SnapshotResult) (st : ModeState) :
    (awaitRefresh cfg env ro3 now genIso cid o st).2.redis = st.redis := by
  unfold awaitRefresh
  cases o with
  | ok r => rfl
  | error e =>
    dsimp only
    cases hm : st.memory with
    | some cached => rfl
    | none =>
      dsimp only
      split
      · rename_i cached st2 heq
        have := readCache_redis ro3 env st
        rw [heq] at this
        exact this
      · rename_i st2 heq
        have := readCache_redis ro3 env st
        rw [heq] at this
        exact this

/-- Claim C7: dual-backend policy.  Reads prefer the shared external store
when a client is connected and the read succeeds, also refreshing the local
memory copy; any read error, an absent client or an absent key falls back to
process-local memory with no state change.  Writes always go to local memory;
the shared store is written exactly when a client is connected, the caller
passed the refresh-computed redis backend, and the SET succeeds; a failed SET
is swallowed (the function still returns, with the memory write in place and
the store untouched).  A getSnapshot call that starts no synchronous
refresh — in particular every HIT or STALE serve — never changes the shared
store's content. -/
theorem C7_dual_backend_policy
    (env : SnapEnv) (readOk : Bool) (st : ModeState) (record : CacheRecord)
    (backend : CacheBackend) :
    (∀ entry, env.clientReady = true → readOk = true → st.redis = some entry →
      readCache readOk env st = (some entry.record, { st with memory := some entry.record })) ∧
    (env.clientReady = false ∨ readOk = false →
      readCache readOk env st = (st.memory, st)) ∧
    (env.clientReady = true → st.redis = none →
      readCache readOk env st = (st.memory, st)) ∧
    ((writeCache env record backend st).memory = some record) ∧
    ((writeCache env record backend st).redis =
      if env.clientReady ∧ backend = CacheBackend.redis then
        (if env.writeOk then
          some { record := record, px := record.staleUntil - record.cachedAt }
         else st.redis)
      else st.redis) ∧
    (env.writeOk = false → (writeCache env record backend st).memory = some record ∧
      (writeCache env record backend st).redis = st.redis) ∧
    (∀ cfg planets ins opts,
      (getSnapshot cfg planets env ins opts st).startedSync = false →
      (getSnapshot cfg planets env ins opts st).state.redis = st.redis) := by
  refine ⟨?_, ?_, ?_, ?_, ?_, ?_, ?_⟩
  · intro entry hc hro hr
    simp [readCache, hc, hro, hr]
  · intro h
    rcases h with h | h <;> simp [readCache, h]
  · intro hc hr
    simp [readCache, hc, hr]
  · unfold writeCache
    repeat' split
    all_goals rfl
  · unfold writeCache
    repeat' split
    all_goals simp_all
  · intro hw
    unfold writeCache
    constructor
    · repeat' split
      all_goals rfl
    · repeat' split
      all_goals simp_all
  · intro cfg planets ins opts h
    unfold getSnapshot at h ⊢
    cases hs : serveFromCache cfg planets env ins opts st with
    | some v =>
      obtain ⟨result, st2, bg⟩ := v
      dsimp only
      exact (serveFromCache_state cfg planets env ins opts st result st2 bg hs).1
    | none =>
      rw [hs] at h
      dsimp only at h ⊢
      cases hp : (if opts.forceRefresh then st else (readCache ins.readOk1 env st).2).inflight with
      | some pending =>
        dsimp only
        refine (awaitRefresh_redis cfg env ins.readOk3 ins.now ins.genIso
          opts.correlationId pending _).trans ?_
        split
        · rfl
        · exact readCache_redis ins.readOk1 env st
      | none =>
        rw [hp] at h
        dsimp only at h
        simp at h

/-- Claim C7 witness: with a connected store holding a record, a read prefers
it and writes it through to memory; with the client absent, writes stay
local. -/
theorem C7_dual_backend_policy_witness :
    redisModeState.redis = some sharedEntry0 ∧
    readCache true env1 redisModeState
      = (some sharedEntry0.record, { redisModeState with memory := some sharedEntry0.record }) ∧
    (writeCache env0 sampleRecord CacheBackend.memory emptyModeState).memory
      = some sampleRecord := by
  have h := C7_dual_backend_policy env1 true redisModeState sampleRecord CacheBackend.memory
  have h2 := C7_dual_backend_policy env0 true emptyModeState sampleRecord CacheBackend.memory
  exact ⟨rfl, h.1 sharedEntry0 rfl rfl rfl, h2.2.2.2.1⟩

/-- Claim C9: every successful multi-body refresh against a configured,
reachable shared store mirrors the freshly built record there, with a PX
expiry equal to the span from capture to the end of the stale window
(staleUntil - cachedAt = TTL + STALE_WINDOW), which is at least the TTL, so
the copy outlives logical staleness in the shared store. -/
theorem C9_shared_store_mirror
    (cfg : CacheConfig) (planets : List PlanetConfig) (ri : RefreshInputs)
    (env : SnapEnv) (cid : Option String) (st : ModeState)
    (r : SnapshotResult) (st' : ModeState)
    (hclient : env.clientReady = true) (hwrite : env.writeOk = true)
    (hok : refreshSnapshot cfg planets ri env cid st = (Except.ok r, st')) :
    ∃ rec, st'.redis = some { record := rec, px := rec.staleUntil - rec.cachedAt } ∧
      rec.cachedAt = ri.now ∧ rec.expiresAt = ri.now + cfg.ttlMs ∧
      rec.staleUntil = ri.now + cfg.ttlMs + cfg.staleMs ∧
      rec.staleUntil - rec.cachedAt = cfg.ttlMs + cfg.staleMs ∧
      (0 ≤ cfg.staleMs → cfg.ttlMs ≤ rec.staleUntil - rec.cachedAt) := by
  unfold refreshSnapshot at hok
  split at hok
  · split at hok
    · exact absurd hok (by simp)
    · rename_i payload st1 heqb
      simp only [Prod.mk.injEq] at hok
      obtain ⟨-, hst⟩ := hok
      refine ⟨{ payload := payload, cachedAt := ri.now, expiresAt := ri.now + cfg.ttlMs,
                staleUntil := ri.now + cfg.ttlMs + cfg.staleMs }, ?_, rfl, rfl, rfl, by ring, ?_⟩
      · rw [← hst]
        simp [writeCache, hclient, hwrite]
      · intro hs
        dsimp only
        omega
  · rename_i hnc
    exact absurd hclient hnc

/-- Claim C9 witness: a concrete successful refresh with the store connected
leaves the mirrored record with PX ≥ TTL. -/
theorem C9_shared_store_mirror_witness :
    env1.clientReady = true ∧
    ∃ rec,
      (refreshSnapshot cfg0 planets0 ri0 env1 none emptyModeState).2.redis
        = some { record := rec, px := rec.staleUntil - rec.cachedAt } ∧
      cfg0.ttlMs ≤ rec.staleUntil - rec.cachedAt := by
  have h := C9_shared_store_mirror cfg0 planets0 ri0 env1 none emptyModeState
    _ _ rfl rfl rfl
  obtain ⟨rec, h1, -, -, -, -, h6⟩ := h
  exact ⟨rfl, rec, h1, h6 (by decide)⟩

theorem processOne_bodies_super (cb : List EphemerisBody) (acc : BuildAcc)
    (c : PlanetConfig) (res : Except String FetchedVector) :
    ∀ b ∈ acc.bodies, b ∈ (processOne cb acc c res).bodies := by
  intro b hb
  unfold processOne
  split
  · simp [hb]
  · split
    · simp [hb]
    · simpa using hb

theorem processOne_fallback_super (cb : List EphemerisBody) (acc : BuildAcc)
    (c : PlanetConfig) (res : Except String FetchedVector) :
    ∀ n ∈ acc.usedFallback, n ∈ (processOne cb acc c res).usedFallback := by
  intro n hn
  unfold processOne
  split
  · simpa using hn
  · split
    · simp [hn]
    · simpa using hn

theorem processOne_missing_super (cb : List EphemerisBody) (acc : BuildAcc)
    (c : PlanetConfig) (res : Except String FetchedVector) :
    ∀ n ∈ acc.missing, n ∈ (processOne cb acc c res).missing := by
  intro n hn
  unfold processOne
  split
  · simpa using hn
  · split
    · simpa using hn
    · simp [hn]

theorem processAcc_mono (cb : List EphemerisBody)
    (l : List (PlanetConfig × Except String FetchedVector)) (acc : BuildAcc) :
    (∀ b ∈ acc.bodies,
      b ∈ (l.foldl (fun a pr => processOne cb a pr.1 pr.2) acc).bodies) ∧
    (∀ n ∈ acc.usedFallback,
      n ∈ (l.foldl (fun a pr => processOne cb a pr.1 pr.2) acc).usedFallback) ∧
    (∀ n ∈ acc.missing,
      n ∈ (l.foldl (fun a pr => processOne cb a pr.1 pr.2) acc).missing) := by
  induction l generalizing acc with
  | nil => exact ⟨fun b hb => hb, fun n hn => hn, fun n hn => hn⟩
  | cons hd tl ih =>
    simp only [List.foldl_cons]
    refine ⟨?_, ?_, ?_⟩
    · intro b hb
      exact (ih (processOne cb acc hd.1 hd.2)).1 b (processOne_bodies_super cb acc hd.1 hd.2 b hb)
    · intro n hn
      exact (ih (processOne cb acc hd.1 hd.2)).2.1 n (processOne_fallback_super cb acc hd.1 hd.2 n hn)
    · intro n hn
      exact (ih (processOne cb acc hd.1 hd.2)).2.2 n (processOne_missing_super cb acc hd.1 hd.2 n hn)

theorem processAcc_mem (cb : List EphemerisBody)
    (l : List (PlanetConfig × Except String FetchedVector)) (acc : BuildAcc) :
    ∀ pr ∈ l,
      (∀ v, pr.2 = Except.ok v →
        bodyOfVector v ∈ (l.foldl (fun a q => processOne cb a q.1 q.2) acc).bodies) ∧
      (∀ e fb, pr.2 = Except.error e → fallbackFor cb pr.1.name = some fb →
        pr.1.name ∈ (l.foldl (fun a q => processOne cb a q.1 q.2) acc).usedFallback ∧
        fb ∈ (l.foldl (fun a q => processOne cb a q.1 q.2) acc).bodies) ∧
      (∀ e, pr.2 = Except.error e → fallbackFor cb pr.1.name = none →
        pr.1.name ∈ (l.foldl (fun a q => processOne cb a q.1 q.2) acc).missing) := by
  induction l generalizing acc with
  | nil => intro pr hpr; exact absurd hpr (by simp)
  | cons hd tl ih =>
    intro pr hpr
    simp only [List.foldl_cons]
    rcases List.mem_cons.mp hpr with h | h
    · subst h
      refine ⟨?_, ?_, ?_⟩
      · intro v hv
        refine (processAcc_mono cb tl (processOne cb acc pr.1 pr.2)).1 _ ?_
        simp [processOne, hv]
      · intro e fb he hfb
        constructor
        · refine (processAcc_mono cb tl (processOne cb acc pr.1 pr.2)).2.1 _ ?_
          simp [processOne, he, hfb]
        · refine (processAcc_mono cb tl (processOne cb acc pr.1 pr.2)).1 _ ?_
          simp [processOne, he, hfb]
      · intro e he hfb
        refine (processAcc_mono cb tl (processOne cb acc pr.1 pr.2)).2.2 _ ?_
        simp [processOne, he, hfb]
    · exact ih (processOne cb acc hd.1 hd.2) pr h

theorem readCache_memory (ro : Bool) (env : SnapEnv) (st : ModeState) :
    (readCache ro env st).2.memory = st.memory ∨
    ∃ entry, st.redis = some entry ∧ (readCache ro env st).2.memory = some entry.record := by
  unfold readCache
  split
  · split
    · split
      · rename_i entry heq
        exact Or.inr ⟨entry, heq, rfl⟩
      · exact Or.inl rfl
    · exact Or.inl rfl
  · exact Or.inl rfl

/-- Claim C3: during a multi-body refresh every tracked body is processed
independently — a fulfilled fetch's vector is appended to the new snapshot; a
rejected fetch substitutes the previous snapshot's body of the same name when
one exists, recording the name among the fallback bodies, and otherwise
records the name among the missing bodies; the snapshot's partFlag is true
exactly when the fallback or missing list is non-empty; a snapshot built
successfully is never empty, and when zero bodies were obtained the build
throws "No Horizons data available", which refreshSnapshot propagates with
nothing written to either cache backend (the state is exactly the
post-readCache state: the shared store and the in-flight slot untouched, the
memory slot at most refreshed with the record the shared store already
held). -/
theorem C3_per_body_independence
    (planets : List PlanetConfig) (fetches : List (Except String FetchedVector))
    (latencyMs : Int) (nowIso : String) (readOk : Bool) (env : SnapEnv)
    (st : ModeState) (cfg : CacheConfig) (ri : RefreshInputs) (cid : Option String)
    (cb : List EphemerisBody)
    (_hlen : planets.length = fetches.length)
    (hcb : cb = buildCachedBodies (readCache readOk env st).1) :
    (∀ snap st1,
      buildPlanetSnapshot planets fetches latencyMs nowIso readOk env st
        = (Except.ok snap, st1) →
      (∀ pr ∈ planets.zip fetches,
        (∀ v, pr.2 = Except.ok v → bodyOfVector v ∈ snap.bodies) ∧
        (∀ e fb, pr.2 = Except.error e → fallbackFor cb pr.1.name = some fb →
          fb ∈ snap.bodies ∧
          ∃ u, snap.metadata.fallbackBodies = some u ∧ pr.1.name ∈ u) ∧
        (∀ e, pr.2 = Except.error e → fallbackFor cb pr.1.name = none →
          ∃ m, snap.metadata.missingBodies = some m ∧ pr.1.name ∈ m)) ∧
      (snap.metadata.partFlag = some true ↔
        (snap.metadata.fallbackBodies ≠ none ∨ snap.metadata.missingBodies ≠ none)) ∧
      snap.bodies ≠ []) ∧
    (∀ e st1,
      buildPlanetSnapshot planets ri.fetches ri.latencyMs ri.buildNowIso ri.readOk env st
        = (Except.error e, st1) →
      refreshSnapshot cfg planets ri env cid st = (Except.error e, st1) ∧
      e = "No Horizons data available" ∧
      st1.redis = st.redis ∧ st1.inflight = st.inflight ∧
      (st1.memory = st.memory ∨
        ∃ entry, st.redis = some entry ∧ st1.memory = some entry.record)) := by
  subst hcb
  constructor
  · intro snap st1 h
    unfold buildPlanetSnapshot at h
    dsimp only at h
    split at h
    · exact absurd h (by simp)
    · rename_i hne
      simp only [Prod.mk.injEq, Except.ok.injEq] at h
      obtain ⟨hsnap, hst1⟩ := h
      subst hsnap
      refine ⟨?_, ?_, ?_⟩
      · intro pr hpr
        have hm := processAcc_mem (buildCachedBodies (readCache readOk env st).1)
          (planets.zip fetches) (buildInit (readCache readOk env st).1) pr hpr
        unfold buildAcc
        refine ⟨?_, ?_, ?_⟩
        · intro v hv
          exact hm.1 v hv
        · intro e fb he hfb
          have h1 := (hm.2.1 e fb he hfb).1
          have h2 := (hm.2.1 e fb he hfb).2
          refine ⟨h2, ⟨_, ?_, h1⟩⟩
          dsimp only
          rw [if_neg (List.ne_nil_of_mem h1)]
        · intro e he hfb
          have h1 := hm.2.2 e he hfb
          refine ⟨_, ?_, h1⟩
          dsimp only
          rw [if_neg (List.ne_nil_of_mem h1)]
      · by_cases hu :
          (buildAcc planets fetches (readCache readOk env st).1).usedFallback = [] <;>
        by_cases hmis :
          (buildAcc planets fetches (readCache readOk env st).1).missing = [] <;>
        simp [hu, hmis]
      · dsimp only
        exact hne
  · intro e st1 h
    refine ⟨?_, ?_⟩
    · unfold refreshSnapshot
      rw [h]
    · unfold buildPlanetSnapshot at h
      dsimp only at h
      split at h
      · rename_i hbe
        simp only [Prod.mk.injEq, Except.error.injEq] at h
        obtain ⟨he, hst1⟩ := h
        refine ⟨he.symm, ?_, ?_, ?_⟩
        · rw [← hst1]
          exact readCache_redis ri.readOk env st
        · rw [← hst1]
          exact readCache_inflight ri.readOk env st
        · rw [← hst1]
          exact readCache_memory ri.readOk env st
      · exact absurd h (by simp)

/-- Claim C3 witness: a concrete one-planet build with a fulfilled fetch puts
that planet's vector in the snapshot and produces a non-empty body list. -/
theorem C3_per_body_independence_witness :
    ∃ snap st1,
      buildPlanetSnapshot planets0 [Except.ok vec0] 42 "T" true env0 emptyModeState
        = (Except.ok snap, st1) ∧
      bodyOfVector vec0 ∈ snap.bodies ∧ snap.bodies ≠ [] := by
  have h := C3_per_body_independence planets0 [Except.ok vec0] 42 "T" true env0
    emptyModeState cfg0 ri0 none _ rfl rfl
  refine ⟨_, _, rfl, ?_, ?_⟩
  · exact ((h.1 _ _ rfl).1 ({ horizonsId := "499", name := "Mars" }, Except.ok vec0)
      (by simp [planets0])).1 vec0 rfl
  · exact (h.1 _ _ rfl).2.2

theorem writeCache_redis_cases (env : SnapEnv) (record : CacheRecord)
    (b : CacheBackend) (st : ModeState) :
    (writeCache env record b st).redis = st.redis ∨
    (writeCache env record b st).redis
      = some { record := record, px := record.staleUntil - record.cachedAt } := by
  unfold writeCache
  split
  · split
    · exact Or.inr rfl
    · exact Or.inl rfl
  · exact Or.inl rfl

theorem buildPlanetSnapshot_state (planets : List PlanetConfig)
    (fetches : List (Except String FetchedVector)) (latencyMs : Int)
    (nowIso : String) (readOk : Bool) (env : SnapEnv) (st : ModeState) :
    (buildPlanetSnapshot planets fetches latencyMs nowIso readOk env st).2
      = (readCache readOk env st).2 := by
  unfold buildPlanetSnapshot
  dsimp only
  split
  · rfl
  · rfl

theorem refreshSnapshot_memory (cfg : CacheConfig) (planets : List PlanetConfig)
    (ri : RefreshInputs) (env : SnapEnv) (cid : Option String) (st : ModeState)
    (o : Except String SnapshotResult) (st' : ModeState)
    (h : refreshSnapshot cfg planets ri env cid st = (o, st')) :
    st'.memory = st.memory ∨
    (∃ entry, st.redis = some entry ∧ st'.memory = some entry.record) ∨
    (∃ rec, st'.memory = some rec ∧ rec.cachedAt = ri.now ∧
      rec.expiresAt = rec.cachedAt + cfg.ttlMs ∧
      rec.staleUntil = rec.expiresAt + cfg.staleMs) := by
  unfold refreshSnapshot at h
  split at h <;>
  [skip; skip] <;>
  · split at h
    · rename_i e st1 heq
      simp only [Prod.mk.injEq] at h
      obtain ⟨-, hst⟩ := h
      have h2 := buildPlanetSnapshot_state planets ri.fetches ri.latencyMs
        ri.buildNowIso ri.readOk env st
      rw [heq] at h2
      dsimp only at h2
      rw [← hst, h2]
      rcases readCache_memory ri.readOk env st with hm | ⟨entry, he, hm⟩
      · exact Or.inl hm
      · exact Or.inr (Or.inl ⟨entry, he, hm⟩)
    · rename_i payload st1 heq
      simp only [Prod.mk.injEq] at h
      obtain ⟨-, hst⟩ := h
      rw [← hst]
      exact Or.inr (Or.inr ⟨_, rfl, rfl, rfl, rfl⟩)

theorem refreshSnapshot_redis (cfg : CacheConfig) (planets : List PlanetConfig)
    (ri : RefreshInputs) (env : SnapEnv) (cid : Option String) (st : ModeState)
    (o : Except String SnapshotResult) (st' : ModeState)
    (h : refreshSnapshot cfg planets ri env cid st = (o, st')) :
    st'.redis = st.redis ∨
    (∃ rec, st'.redis = some { record := rec, px := rec.staleUntil - rec.cachedAt } ∧
      rec.cachedAt = ri.now ∧ rec.expiresAt = rec.cachedAt + cfg.ttlMs ∧
      rec.staleUntil = rec.expiresAt + cfg.staleMs) := by
  have hb := buildPlanetSnapshot_state planets ri.fetches ri.latencyMs
    ri.buildNowIso ri.readOk env st
  have hrr := readCache_redis ri.readOk env st
  unfold refreshSnapshot at h
  split at h
  · split at h
    · rename_i e st1 heq
      simp only [Prod.mk.injEq] at h
      obtain ⟨-, hst⟩ := h
      rw [heq] at hb
      dsimp only at hb
      rw [← hst, hb]
      exact Or.inl hrr
    · rename_i payload st1 heq
      simp only [Prod.mk.injEq] at h
      obtain ⟨-, hst⟩ := h
      rw [heq] at hb
      dsimp only at hb
      rw [← hst]
      dsimp only
      rcases writeCache_redis_cases env
        { payload := payload, cachedAt := ri.now, expiresAt := ri.now + cfg.ttlMs,
          staleUntil := ri.now + cfg.ttlMs + cfg.staleMs }
        CacheBackend.redis st1 with hw | hw
      · rw [hw, hb]
        exact Or.inl hrr
      · rw [hw]
        exact Or.inr ⟨_, rfl, rfl, rfl, rfl⟩
  · split at h
    · rename_i e st1 heq
      simp only [Prod.mk.injEq] at h
      obtain ⟨-, hst⟩ := h
      rw [heq] at hb
      dsimp only at hb
      rw [← hst, hb]
      exact Or.inl hrr
    · rename_i payload st1 heq
      simp only [Prod.mk.injEq] at h
      obtain ⟨-, hst⟩ := h
      rw [heq] at hb
      dsimp only at hb
      rw [← hst]
      dsimp only
      rcases writeCache_redis_cases env
        { payload := payload, cachedAt := ri.now, expiresAt := ri.now + cfg.ttlMs,
          staleUntil := ri.now + cfg.ttlMs + cfg.staleMs }
        CacheBackend.memory st1 with hw | hw
      · rw [hw, hb]
        exact Or.inl hrr
      · rw [hw]
        exact Or.inr ⟨_, rfl, rfl, rfl, rfl⟩

theorem awaitRefresh_memory (cfg : CacheConfig) (env : SnapEnv) (ro3 : Bool)
    (now : Int) (genIso : String) (cid : Option String)
    (o : Except String SnapshotResult) (st : ModeState) :
    (awaitRefresh cfg env ro3 now genIso cid o st).2.memory = st.memory ∨
    ∃ entry, st.redis = some entry ∧
      (awaitRefresh cfg env ro3 now genIso cid o st).2.memory = some entry.record := by
  unfold awaitRefresh
  cases o with
  | ok r =>
    left
    rfl
  | error e =>
    dsimp only
    cases hm : st.memory with
    | some cached =>
      left
      exact hm
    | none =>
      dsimp only
      split
      · rename_i cached st2 heq
        have h1 := readCache_memory ro3 env st
        rw [heq, hm] at h1
        exact h1
      · rename_i st2 heq
        have h1 := readCache_memory ro3 env st
        rw [heq, hm] at h1
        exact h1

/-- Claim C8: every CacheRecord constructed by a successful multi-body refresh
satisfies cachedAt ≤ expiresAt ≤ staleUntil, given non-negative TTL and
stale-window configuration (and so does the copy mirrored to the shared
store); and the memory cache slot is only ever changed by full replacement
with a whole record: after any getSnapshot call it holds either its previous
record, the record the shared store already held (write-through on read), or
a whole freshly built refresh record satisfying the invariant. -/
theorem C8_record_invariant_and_full_replacement
    (cfg : CacheConfig) (planets : List PlanetConfig) (ri : RefreshInputs)
    (env : SnapEnv) (cid : Option String) (st : ModeState)
    (httl : 0 ≤ cfg.ttlMs) (hstale : 0 ≤ cfg.staleMs) :
    (∀ r st', refreshSnapshot cfg planets ri env cid st = (Except.ok r, st') →
      (∃ rec, st'.memory = some rec ∧ rec.cachedAt = ri.now ∧
        rec.cachedAt ≤ rec.expiresAt ∧ rec.expiresAt ≤ rec.staleUntil) ∧
      (∀ entry, st'.redis = some entry → st.redis = some entry ∨
        (entry.record.cachedAt ≤ entry.record.expiresAt ∧
         entry.record.expiresAt ≤ entry.record.staleUntil))) ∧
    (∀ ins opts,
      (getSnapshot cfg planets env ins opts st).state.memory = st.memory ∨
      (∃ entry, st.redis = some entry ∧
        (getSnapshot cfg planets env ins opts st).state.memory = some entry.record) ∨
      (∃ rec, (getSnapshot cfg planets env ins opts st).state.memory = some rec ∧
        rec.expiresAt = rec.cachedAt + cfg.ttlMs ∧
        rec.staleUntil = rec.expiresAt + cfg.staleMs ∧
        rec.cachedAt ≤ rec.expiresAt ∧ rec.expiresAt ≤ rec.staleUntil)) := by
  constructor
  · intro r st' h
    constructor
    · unfold refreshSnapshot at h
      split at h <;>
      [skip; skip] <;>
      · split at h
        · exact absurd h (by simp)
        · rename_i payload st1 heq
          simp only [Prod.mk.injEq] at h
          obtain ⟨-, hst⟩ := h
          rw [← hst]
          refine ⟨_, rfl, rfl, ?_, ?_⟩
          · dsimp only
            omega
          · dsimp only
            omega
    · intro entry hent
      rcases refreshSnapshot_redis cfg planets ri env cid st _ _ h with hw | ⟨rec, hw, h1, h2, h3⟩
      · rw [hw] at hent
        exact Or.inl hent
      · rw [hw] at hent
        simp only [Option.some.injEq] at hent
        rw [← hent]
        dsimp only
        refine Or.inr ⟨?_, ?_⟩
        · omega
        · omega
  · intro ins opts
    unfold getSnapshot
    cases hs : serveFromCache cfg planets env ins opts st with
    | some v =>
      obtain ⟨result, st2, bg⟩ := v
      dsimp only
      have h2 := (serveFromCache_state cfg planets env ins opts st result st2 bg hs).2
      rcases readCache_memory ins.readOk1 env st with hm | ⟨entry, he, hm⟩
      · exact Or.inl (h2.trans hm)
      · exact Or.inr (Or.inl ⟨entry, he, h2.trans hm⟩)
    | none =>
      dsimp only
      have hstm_mem :
          (if opts.forceRefresh then st else (readCache ins.readOk1 env st).2).memory
            = st.memory ∨
          ∃ entry, st.redis = some entry ∧
            (if opts.forceRefresh then st else (readCache ins.readOk1 env st).2).memory
              = some entry.record := by
        split
        · exact Or.inl rfl
        · exact readCache_memory ins.readOk1 env st
      have hstm_redis :
          (if opts.forceRefresh then st else (readCache ins.readOk1 env st).2).redis
            = st.redis := by
        split
        · rfl
        · exact readCache_redis ins.readOk1 env st
      cases hp : (if opts.forceRefresh then st else (readCache ins.readOk1 env st).2).inflight with
      | some pending =>
        dsimp only
        rcases awaitRefresh_memory cfg env ins.readOk3 ins.now ins.genIso
            opts.correlationId pending
            (if opts.forceRefresh then st else (readCache ins.readOk1 env st).2)
          with hm | ⟨entry, he, hm⟩
        · rcases hstm_mem with h3 | ⟨entry, he, h3⟩
          · exact Or.inl (hm.trans h3)
          · exact Or.inr (Or.inl ⟨entry, he, hm.trans h3⟩)
        · rw [hstm_redis] at he
          exact Or.inr (Or.inl ⟨entry, he, hm⟩)
      | none =>
        dsimp only
        rcases hrp : refreshSnapshot cfg planets ins.refresh env opts.correlationId
          (if opts.forceRefresh then st else (readCache ins.readOk1 env st).2)
          with ⟨o, strf⟩
        dsimp only
        rcases awaitRefresh_memory cfg env ins.readOk3 ins.now ins.genIso
            opts.correlationId o strf with hm | ⟨entry, he, hm⟩
        · rcases refreshSnapshot_memory cfg planets ins.refresh env
              opts.correlationId _ _ _ hrp with h3 | ⟨entry, he, h3⟩ | ⟨rec, h3, hf1, hf2, hf3⟩
          · rcases hstm_mem with h4 | ⟨entry, he, h4⟩
            · exact Or.inl (hm.trans (h3.trans h4))
            · exact Or.inr (Or.inl ⟨entry, he, hm.trans (h3.trans h4)⟩)
          · rw [hstm_redis] at he
            exact Or.inr (Or.inl ⟨entry, he, hm.trans h3⟩)
          · refine Or.inr (Or.inr ⟨rec, hm.trans h3, hf2, hf3, ?_, ?_⟩)
            · omega
            · omega
        · rcases refreshSnapshot_redis cfg planets ins.refresh env
              opts.correlationId _ _ _ hrp with hw | ⟨rec, hw, h1, h2, h3⟩
          · rw [hw, hstm_redis] at he
            exact Or.inr (Or.inl ⟨entry, he, hm⟩)
          · rw [hw] at he
            simp only [Option.some.injEq] at he
            subst he
            refine Or.inr (Or.inr ⟨rec, hm, h2, h3, ?_, ?_⟩)
            · omega
            · omega

/-- Claim C8 witness: a concrete successful refresh stores a record with
cachedAt ≤ expiresAt ≤ staleUntil. -/
theorem C8_record_invariant_witness :
    (0 : Int) ≤ cfg0.ttlMs ∧ (0 : Int) ≤ cfg0.staleMs ∧
    ∃ rec, (refreshSnapshot cfg0 planets0 ri0 env0 none emptyModeState).2.memory
        = some rec ∧
      rec.cachedAt ≤ rec.expiresAt ∧ rec.expiresAt ≤ rec.staleUntil := by
  have h := C8_record_invariant_and_full_replacement cfg0 planets0 ri0 env0 none
    emptyModeState (by decide) (by decide)
  obtain ⟨⟨rec, h1, h2, h3, h4⟩, -⟩ := h.1 _ _ rfl
  exact ⟨by decide, by decide, rec, h1, h3, h4⟩

/-- Claim C1: for every non-forced getSnapshot call, with age = now - cachedAt
of the record the cache consultation returns (and a non-negative stale
window): age < TTL serves it HIT with no refresh activity; TTL ≤ age <
TTL + STALE serves it STALE immediately, starting a fire-and-forget
background revalidation exactly when no refresh is in flight for the mode;
age ≥ TTL + STALE, or no record at all, sends the caller to the synchronous
path, where it joins the in-flight refresh when one exists and otherwise
starts one itself and awaits it (receiving its decorated payload on
success). -/
theorem C1_freshness_window
    (cfg : CacheConfig) (planets : List PlanetConfig) (env : SnapEnv)
    (ins : SnapshotCallInputs) (cid : Option String) (st : ModeState)
    (hstale : 0 ≤ cfg.staleMs) :
    (∀ cached st1, readCache ins.readOk1 env st = (some cached, st1) →
      ins.now - cached.cachedAt < cfg.ttlMs →
      getSnapshot cfg planets env ins { forceRefresh := false, correlationId := cid } st
        = { result := Except.ok
              { payload := decoratePayloadMetadata cfg cached.payload CacheState.HIT
                  (if env.clientReady then CacheBackend.redis else CacheBackend.memory)
                  (ins.now - cached.cachedAt) ins.genIso cid
                cacheState := CacheState.HIT
                cacheBackend := if env.clientReady then CacheBackend.redis else CacheBackend.memory
                cacheAgeMs := ins.now - cached.cachedAt }
            state := st1
            startedBackground := false
            startedSync := false
            joinedInflight := false
            refreshesStarted := 0 }) ∧
    (∀ cached st1, readCache ins.readOk1 env st = (some cached, st1) →
      ¬(ins.now - cached.cachedAt < cfg.ttlMs) →
      ins.now - cached.cachedAt < cfg.ttlMs + cfg.staleMs →
      getSnapshot cfg planets env ins { forceRefresh := false, correlationId := cid } st
        = { result := Except.ok
              { payload := decoratePayloadMetadata cfg cached.payload CacheState.STALE
                  (if env.clientReady then CacheBackend.redis else CacheBackend.memory)
                  (ins.now - cached.cachedAt) ins.genIso cid
                cacheState := CacheState.STALE
                cacheBackend := if env.clientReady then CacheBackend.redis else CacheBackend.memory
                cacheAgeMs := ins.now - cached.cachedAt }
            state :=
              if st1.inflight.isNone then
                { st1 with
                  inflight := some (refreshSnapshot cfg planets ins.refresh env none st1).1 }
              else st1
            startedBackground := st1.inflight.isNone
            startedSync := false
            joinedInflight := false
            refreshesStarted := if st1.inflight.isNone then 1 else 0 }) ∧
    (∀ cached st1, readCache ins.readOk1 env st = (some cached, st1) →
      ¬(ins.now - cached.cachedAt < cfg.ttlMs + cfg.staleMs) →
      (∀ pending, st1.inflight = some pending →
        getSnapshot cfg planets env ins { forceRefresh := false, correlationId := cid } st
          = { result := (awaitRefresh cfg env ins.readOk3 ins.now ins.genIso cid pending st1).1
              state := (awaitRefresh cfg env ins.readOk3 ins.now ins.genIso cid pending st1).2
              startedBackground := false
              startedSync := false
              joinedInflight := true
              refreshesStarted := 0 }) ∧
      (st1.inflight = none →
        (getSnapshot cfg planets env ins { forceRefresh := false, correlationId := cid } st).startedSync = true ∧
        (getSnapshot cfg planets env ins { forceRefresh := false, correlationId := cid } st).refreshesStarted = 1 ∧
        (∀ r, (refreshSnapshot cfg planets ins.refresh env cid st1).1 = Except.ok r →
          (getSnapshot cfg planets env ins { forceRefresh := false, correlationId := cid } st).result
            = Except.ok (decorateAwaited cfg ins.genIso cid r)))) ∧
    (∀ st1, readCache ins.readOk1 env st = (none, st1) →
      (∀ pending, st1.inflight = some pending →
        getSnapshot cfg planets env ins { forceRefresh := false, correlationId := cid } st
          = { result := (awaitRefresh cfg env ins.readOk3 ins.now ins.genIso cid pending st1).1
              state := (awaitRefresh cfg env ins.readOk3 ins.now ins.genIso cid pending st1).2
              startedBackground := false
              startedSync := false
              joinedInflight := true
              refreshesStarted := 0 }) ∧
      (st1.inflight = none →
        (getSnapshot cfg planets env ins { forceRefresh := false, correlationId := cid } st).startedSync = true ∧
        (getSnapshot cfg planets env ins { forceRefresh := false, correlationId := cid } st).refreshesStarted = 1 ∧
        (∀ r, (refreshSnapshot cfg planets ins.refresh env cid st1).1 = Except.ok r →
          (getSnapshot cfg planets env ins { forceRefresh := false, correlationId := cid } st).result
            = Except.ok (decorateAwaited cfg ins.genIso cid r)))) := by
  refine ⟨?_, ?_, ?_, ?_⟩
  · intro cached st1 hrd h1
    simp [getSnapshot, serveFromCache, hrd, h1]
  · intro cached st1 hrd h1 h2
    by_cases hin : st1.inflight.isNone <;>
      simp [getSnapshot, serveFromCache, hrd, h1, h2, hin]
  · intro cached st1 hrd h2
    have h1 : ¬(ins.now - cached.cachedAt < cfg.ttlMs) := by omega
    constructor
    · intro pending hin
      simp [getSnapshot, serveFromCache, hrd, h1, h2, hin]
    · intro hin
      refine ⟨?_, ?_, ?_⟩
      · simp [getSnapshot, serveFromCache, hrd, h1, h2, hin]
      · simp [getSnapshot, serveFromCache, hrd, h1, h2, hin]
      · intro r hr
        simp [getSnapshot, serveFromCache, hrd, h1, h2, hin, awaitRefresh, hr]
  · intro st1 hrd
    constructor
    · intro pending hin
      simp [getSnapshot, serveFromCache, hrd, hin]
    · intro hin
      refine ⟨?_, ?_, ?_⟩
      · simp [getSnapshot, serveFromCache, hrd, hin]
      · simp [getSnapshot, serveFromCache, hrd, hin]
      · intro r hr
        simp [getSnapshot, serveFromCache, hrd, hin, awaitRefresh, hr]

/-- Claim C1 witness: a concrete fresh record (age 1200ms < TTL 120000ms) is
served HIT with the decorated payload. -/
theorem C1_freshness_window_witness :
    (ins0.now - sampleRecord.cachedAt < cfg0.ttlMs) ∧
    (getSnapshot cfg0 planets0 env0 ins0
        { forceRefresh := false, correlationId := some "w" } stHit).result
      = Except.ok
          { payload := decoratePayloadMetadata cfg0 sampleRecord.payload CacheState.HIT
              CacheBackend.memory (ins0.now - sampleRecord.cachedAt) ins0.genIso (some "w")
            cacheState := CacheState.HIT
            cacheBackend := CacheBackend.memory
            cacheAgeMs := ins0.now - sampleRecord.cachedAt } := by
  have h := C1_freshness_window cfg0 planets0 env0 ins0 (some "w") stHit (by decide)
  have h1 := h.1 sampleRecord stHit rfl (by decide)
  refine ⟨by decide, ?_⟩
  rw [h1]
  rfl

theorem buildPlanetSnapshot_error_msg (planets : List PlanetConfig)
    (fetches : List (Except String FetchedVector)) (latencyMs : Int)
    (nowIso : String) (readOk : Bool) (env : SnapEnv) (st : ModeState)
    (u : String) (st1 : ModeState)
    (h : buildPlanetSnapshot planets fetches latencyMs nowIso readOk env st
        = (Except.error u, st1)) :
    u = "No Horizons data available" := by
  unfold buildPlanetSnapshot at h
  dsimp only at h
  split at h
  · simp only [Prod.mk.injEq, Except.error.injEq] at h
    exact h.1.symm
  · exact absurd h (by simp)

theorem refreshSnapshot_error_msg (cfg : CacheConfig) (planets : List PlanetConfig)
    (ri : RefreshInputs) (env : SnapEnv) (cid : Option String) (st : ModeState)
    (e : String) (st' : ModeState)
    (h : refreshSnapshot cfg planets ri env cid st = (Except.error e, st')) :
    e = "No Horizons data available" := by
  unfold refreshSnapshot at h
  split at h <;>
  [skip; skip] <;>
  · split at h
    · rename_i e0 st1 heq
      simp only [Prod.mk.injEq, Except.error.injEq] at h
      rw [← h.1]
      exact buildPlanetSnapshot_error_msg planets ri.fetches ri.latencyMs
        ri.buildNowIso ri.readOk env st e0 st1 heq
    · exact absurd h (by simp)

/-- Claim C4: when the refresh a getSnapshot call starts fails as a whole
(the zero-bodies case — the only throw a refresh can produce, with its fixed
non-empty message), the call falls back to the state's process memory first
and then to a shared-store read; a record found either way is returned, at
whatever age, as cacheState FROZEN with cacheStale true, cacheExpiresInMs 0,
frozenSnapshot true and freezeReason the error message; with no record in
either backend the error propagates uncaught.  A caller that joined a
refresh that fails is served the same memory-first fallback. -/
theorem C4_frozen_snapshot_fallback
    (cfg : CacheConfig) (planets : List PlanetConfig) (env : SnapEnv)
    (ins : SnapshotCallInputs) (cid : Option String) (st : ModeState)
    (e : String) (strf : ModeState)
    (hin : st.inflight = none)
    (hrf : refreshSnapshot cfg planets ins.refresh env cid st = (Except.error e, strf)) :
    (e = "No Horizons data available" ∧ e ≠ "") ∧
    (∀ cached, strf.memory = some cached →
      (getSnapshot cfg planets env ins { forceRefresh := true, correlationId := cid } st).result
        = Except.ok
          { payload := frozenOverlay e cid
              (decoratePayloadMetadata cfg cached.payload CacheState.FROZEN
                (if env.clientReady then CacheBackend.redis else CacheBackend.memory)
                (ins.now - cached.cachedAt) ins.genIso cid)
            cacheState := CacheState.FROZEN
            cacheBackend := if env.clientReady then CacheBackend.redis else CacheBackend.memory
            cacheAgeMs := ins.now - cached.cachedAt } ∧
      ((frozenOverlay e cid
          (decoratePayloadMetadata cfg cached.payload CacheState.FROZEN
            (if env.clientReady then CacheBackend.redis else CacheBackend.memory)
            (ins.now - cached.cachedAt) ins.genIso cid)).metadata.cacheStatus
          = some CacheState.FROZEN ∧
       (frozenOverlay e cid
          (decoratePayloadMetadata cfg cached.payload CacheState.FROZEN
            (if env.clientReady then CacheBackend.redis else CacheBackend.memory)
            (ins.now - cached.cachedAt) ins.genIso cid)).metadata.cacheStale = some true ∧
       (frozenOverlay e cid
          (decoratePayloadMetadata cfg cached.payload CacheState.FROZEN
            (if env.clientReady then CacheBackend.redis else CacheBackend.memory)
            (ins.now - cached.cachedAt) ins.genIso cid)).metadata.cacheExpiresInMs = some 0 ∧
       (frozenOverlay e cid
          (decoratePayloadMetadata cfg cached.payload CacheState.FROZEN
            (if env.clientReady then CacheBackend.redis else CacheBackend.memory)
            (ins.now - cached.cachedAt) ins.genIso cid)).metadata.frozenSnapshot = some true ∧
       (frozenOverlay e cid
          (decoratePayloadMetadata cfg cached.payload CacheState.FROZEN
            (if env.clientReady then CacheBackend.redis else CacheBackend.memory)
            (ins.now - cached.cachedAt) ins.genIso cid)).metadata.freezeReason = some e)) ∧
    (strf.memory = none →
      ∀ cached st2, readCache ins.readOk3 env strf = (some cached, st2) →
      (getSnapshot cfg planets env ins { forceRefresh := true, correlationId := cid } st).result
        = Except.ok
          { payload := frozenOverlay e cid
              (decoratePayloadMetadata cfg cached.payload CacheState.FROZEN
                (if env.clientReady then CacheBackend.redis else CacheBackend.memory)
                (ins.now - cached.cachedAt) ins.genIso cid)
            cacheState := CacheState.FROZEN
            cacheBackend := if env.clientReady then CacheBackend.redis else CacheBackend.memory
            cacheAgeMs := ins.now - cached.cachedAt }) ∧
    (strf.memory = none →
      ∀ st2, readCache ins.readOk3 env strf = (none, st2) →
      (getSnapshot cfg planets env ins { forceRefresh := true, correlationId := cid } st).result
        = Except.error e) ∧
    (∀ stj : ModeState, stj.inflight = some (Except.error e) →
      ∀ cached, stj.memory = some cached →
      (getSnapshot cfg planets env ins { forceRefresh := true, correlationId := cid } stj).result
        = Except.ok
          { payload := frozenOverlay e cid
              (decoratePayloadMetadata cfg cached.payload CacheState.FROZEN
                (if env.clientReady then CacheBackend.redis else CacheBackend.memory)
                (ins.now - cached.cachedAt) ins.genIso cid)
            cacheState := CacheState.FROZEN
            cacheBackend := if env.clientReady then CacheBackend.redis else CacheBackend.memory
            cacheAgeMs := ins.now - cached.cachedAt }) := by
  have hmsg := refreshSnapshot_error_msg cfg planets ins.refresh env cid st e strf hrf
  refine ⟨⟨hmsg, by rw [hmsg]; intro hc; exact absurd hc (by decide)⟩, ?_, ?_, ?_, ?_⟩
  · intro cached hmem
    refine ⟨?_, rfl, rfl, rfl, rfl, rfl⟩
    simp [getSnapshot, serveFromCache, hin, hrf, awaitRefresh, hmem]
  · intro hmem cached st2 hread
    simp [getSnapshot, serveFromCache, hin, hrf, awaitRefresh, hmem, hread]
  · intro hmem st2 hread
    simp [getSnapshot, serveFromCache, hin, hrf, awaitRefresh, hmem, hread]
  · intro stj hj cached hmem
    simp [getSnapshot, serveFromCache, hj, awaitRefresh, hmem]

/-- Claim C4 witness: a refresh whose only planet's fetch fails with no
usable fallback body throws; the caller is served the previous (mismatched)
record FROZEN, with the expected staleness markers. -/
theorem C4_frozen_snapshot_fallback_witness :
    stMismatch.inflight = none ∧
    (getSnapshot cfg0 planets0 env0 insFail
        { forceRefresh := true, correlationId := some "w" } stMismatch).result
      = Except.ok
        { payload := frozenOverlay "No Horizons data available" (some "w")
            (decoratePayloadMetadata cfg0 mismatchRecord.payload CacheState.FROZEN
              CacheBackend.memory (insFail.now - mismatchRecord.cachedAt)
              insFail.genIso (some "w"))
          cacheState := CacheState.FROZEN
          cacheBackend := CacheBackend.memory
          cacheAgeMs := insFail.now - mismatchRecord.cachedAt } := by
  have h := C4_frozen_snapshot_fallback cfg0 planets0 env0 insFail (some "w")
    stMismatch "No Horizons data available" stMismatch rfl rfl
  refine ⟨rfl, ?_⟩
  have h2 := (h.2.1 mismatchRecord rfl).1
  rw [h2]
  rfl

theorem buildPlanetSnapshot_ok_meta (planets : List PlanetConfig)
    (fetches : List (Except String FetchedVector)) (latencyMs : Int)
    (nowIso : String) (readOk : Bool) (env : SnapEnv) (st : ModeState)
    (p : EphemerisSnapshot) (st1 : ModeState)
    (h : buildPlanetSnapshot planets fetches latencyMs nowIso readOk env st
        = (Except.ok p, st1)) :
    p.metadata.cacheStatus = none ∧ p.metadata.requestId = none := by
  unfold buildPlanetSnapshot at h
  dsimp only at h
  split at h
  · exact absurd h (by simp)
  · simp only [Prod.mk.injEq, Except.ok.injEq] at h
    rw [← h.1]
    exact ⟨rfl, rfl⟩

/-- Claim C6 counterexample: after a concrete successful refresh, the
snapshot held by the freshly stored in-memory record carries the MISS
decoration applied for the caller — cacheStatus MISS and the caller's
requestId — and is the very payload the caller receives, whereas the
snapshot as built (before decoration) has no cacheStatus; so the decoration
did change the payload object held in the cache slot. -/
theorem C6_counterexample :
    ((refreshSnapshot cfg0 planets0 ri0 env0 (some "w") emptyModeState).2.memory.map
        (fun rec => rec.payload.metadata.cacheStatus)) = some (some CacheState.MISS) ∧
    ((refreshSnapshot cfg0 planets0 ri0 env0 (some "w") emptyModeState).2.memory.map
        (fun rec => rec.payload.metadata.requestId)) = some (some "w") ∧
    ((buildPlanetSnapshot planets0 ri0.fetches ri0.latencyMs ri0.buildNowIso ri0.readOk
        env0 emptyModeState).1.toOption.map (fun p => p.metadata.cacheStatus)) = some none ∧
    ((refreshSnapshot cfg0 planets0 ri0 env0 (some "w") emptyModeState).2.memory.map
        (fun rec => rec.payload))
      = ((refreshSnapshot cfg0 planets0 ri0 env0 (some "w") emptyModeState).1.toOption.map
        (fun r => r.payload)) :=
  ⟨rfl, rfl, rfl, rfl⟩

/-- Claim C6 (amended): serving from the cache never mutates the stored
record — a HIT or STALE serve leaves the memory slot exactly as the
consultation's read left it and the shared store untouched, and awaiting a
refresh outcome (including the FROZEN fallback construction) leaves the
memory slot unchanged except for the read-through of a record the shared
store already held; the MISS decoration of a successful refresh, however, is
applied to the payload object aliased by the record just stored in memory,
so the in-memory record holds the decorated payload — identical to what the
caller receives — while the shared-store copy, serialized before the
reassignment, holds the undecorated snapshot; the decoration only replaces
the metadata: the stored snapshot's bodies and timestamp are those built. -/
theorem C6_decoration_mutation
    (cfg : CacheConfig) (planets : List PlanetConfig) (env : SnapEnv)
    (ins : SnapshotCallInputs) (opts : GetOptions) (st : ModeState)
    (ri : RefreshInputs) (cid : Option String)
    (ro3 : Bool) (now : Int) (genIso : String)
    (o : Except String SnapshotResult) (st0 : ModeState) :
    (∀ r st2 bg, serveFromCache cfg planets env ins opts st = some (r, st2, bg) →
      st2.memory = (readCache ins.readOk1 env st).2.memory ∧ st2.redis = st.redis) ∧
    ((awaitRefresh cfg env ro3 now genIso cid o st0).2.memory = st0.memory ∨
      ∃ entry, st0.redis = some entry ∧
        (awaitRefresh cfg env ro3 now genIso cid o st0).2.memory = some entry.record) ∧
    (∀ payload st1,
      buildPlanetSnapshot planets ri.fetches ri.latencyMs ri.buildNowIso ri.readOk env st
        = (Except.ok payload, st1) →
      ∀ r st', refreshSnapshot cfg planets ri env cid st = (Except.ok r, st') →
      (∃ rec, st'.memory = some rec ∧
        rec.payload = missDecorateSnapshot cfg payload
          (if env.clientReady then CacheBackend.redis else CacheBackend.memory)
          ri.nowIso cid ∧
        rec.payload = r.payload ∧
        rec.payload.bodies = payload.bodies ∧
        rec.payload.timestamp = payload.timestamp ∧
        rec.payload.metadata.cacheStatus = some CacheState.MISS ∧
        payload.metadata.cacheStatus = none) ∧
      (env.clientReady = true → env.writeOk = true →
        ∃ entry, st'.redis = some entry ∧ entry.record.payload = payload)) := by
  refine ⟨?_, ?_, ?_⟩
  · intro r st2 bg h
    exact ⟨(serveFromCache_state cfg planets env ins opts st r st2 bg h).2,
      (serveFromCache_state cfg planets env ins opts st r st2 bg h).1⟩
  · exact awaitRefresh_memory cfg env ro3 now genIso cid o st0
  · intro payload st1 hb r st' hrf
    have hmeta := buildPlanetSnapshot_ok_meta planets ri.fetches ri.latencyMs
      ri.buildNowIso ri.readOk env st payload st1 hb
    unfold refreshSnapshot at hrf
    rw [hb] at hrf
    dsimp only at hrf
    by_cases hcr : env.clientReady = true
    · rw [if_pos hcr] at hrf
      simp only [if_pos hcr]
      simp only [Prod.mk.injEq, Except.ok.injEq] at hrf
      obtain ⟨hr, hst⟩ := hrf
      constructor
      · refine ⟨_, by rw [← hst], rfl, ?_, rfl, rfl, rfl, hmeta.1⟩
        rw [← hr]
      · intro _ hwo
        rw [← hst]
        dsimp only
        simp only [writeCache, hcr, hwo]
        simp

    · rw [if_neg hcr] at hrf
      simp only [if_neg hcr]
      simp only [Prod.mk.injEq, Except.ok.injEq] at hrf
      obtain ⟨hr, hst⟩ := hrf
      constructor
      · refine ⟨_, by rw [← hst], rfl, ?_, rfl, rfl, rfl, hmeta.1⟩
        rw [← hr]
      · intro hcr2 _
        exact absurd hcr2 hcr

/-- Claim C6 amended-theorem witness: at the concrete refresh the stored
record's payload is the MISS-decorated snapshot. -/
theorem C6_decoration_mutation_witness :
    ∃ rec, (refreshSnapshot cfg0 planets0 ri0 env0 (some "w") emptyModeState).2.memory
        = some rec ∧
      rec.payload.metadata.cacheStatus = some CacheState.MISS := by
  have h := C6_decoration_mutation cfg0 planets0 env0 ins0
    { forceRefresh := true, correlationId := some "w" } emptyModeState ri0 (some "w")
    true 0 "G" (Except.ok sampleResult) emptyModeState
  obtain ⟨⟨rec, h1, h2, h3, h4, h5, h6, h7⟩, -⟩ := h.2.2 _ _ rfl _ _ rfl
  exact ⟨rec, h1, h6⟩

end SolarSystem
